import Mathlib

/-!
Verification development for the OAuthKitchen analysis core
(`src/oauthkitchen/analyzers/translator.py`, `scoring.py`, `shadow.py`,
`config.py`, `models.py`).

The Python code is shallowly embedded: Python `float` weights become `ℚ`,
Python `int(...)` truncation becomes `pyInt`, Python sets (which are only
used for deduplicated iteration and membership) become deduplicated lists,
and the editable YAML permission catalog becomes an explicit association
list `Rules` parameter (the catalog file itself ships outside the analyzed
sources, so every statement is parametric in the loaded rule map).
Values derived from wall-clock time in the Python models
(`days_since_last_activity`, `days_until_expiry`, `age_days`) are embedded
as the already-computed integer results, since the scoring code only ever
consumes those derived numbers.
-/

namespace OAuthKitchen

/-- `RiskCategory` enum from `models.py`. -/
inductive RiskCategory where
  | readOnly
  | dataExfiltration
  | privilegeEscalation
  | tenantTakeover
  | persistence
  | lateralMovement
  | unknown
  deriving DecidableEq, Repr

/-- `ConsentType` enum from `models.py`. -/
inductive ConsentType where
  | admin
  | user
  | unknown
  deriving DecidableEq, Repr

/-- `AppType` enum from `models.py`. -/
inductive AppType where
  | firstPartyMicrosoft
  | tenantOwned
  | thirdPartyMultiTenant
  | externalUnknown
  deriving DecidableEq, Repr

/-- `CredentialType` enum from `models.py`. -/
inductive CredentialType where
  | password
  | certificate
  deriving DecidableEq, Repr

/-- String value of a `CredentialType` (`.value` in Python). -/
def CredentialType.value : CredentialType → String
  | .password => "password"
  | .certificate => "certificate"

/-- One entry of the loaded permission-rules map (`translator.py`,
`self.rules[key]`).  Each field mirrors a key that `translate` /
`get_high_impact_permissions` read with `rule.get(...)`; `Option` encodes a
key that the YAML entry omits. -/
structure Rule where
  resource : Option String := none
  display_name : Option String := none
  plain_english : Option String := none
  category : Option String := none
  impact_score : Option Int := none
  abuse_scenarios : Option (List String) := none
  admin_impact_note : Option String := none
  deriving DecidableEq, Repr

/-- The flattened case-folded-key rule map of `PermissionTranslator.rules`
(a Python dict: association list with the dict's insertion order). -/
abbrev Rules := List (String × Rule)

/-- Python `dict.get(key)` on the rule map. -/
def Rules.get (rules : Rules) (key : String) : Option Rule :=
  (rules.find? (fun kr => kr.1 == key)).map (·.2)

/-- `TranslatedPermission` dataclass from `translator.py`. -/
structure TranslatedPermission where
  permission : String
  resource : String
  plain_english : String
  category : RiskCategory
  category_label : String
  impact_score : Int
  abuse_scenarios : List String
  admin_impact_note : Option String
  is_known : Bool
  deriving DecidableEq, Repr

/-- Python `str.lower()`: per-character case folding (as in
`String.toLower`, but stated directly on the character list so concrete
instances evaluate in the kernel). -/
def pyLower (s : String) : String :=
  ⟨s.data.map Char.toLower⟩

/-- `PermissionTranslator._parse_category`: category string (lower-cased)
to `RiskCategory`, defaulting to `unknown`. -/
def parseCategory (category_str : String) : RiskCategory :=
  match pyLower category_str with
  | "read_only" => .readOnly
  | "data_exfiltration" => .dataExfiltration
  | "privilege_escalation" => .privilegeEscalation
  | "tenant_takeover" => .tenantTakeover
  | "persistence" => .persistence
  | "lateral_movement" => .lateralMovement
  | _ => .unknown

/-- `PermissionTranslator.CATEGORY_LABELS`, the fixed 7-entry table. -/
def categoryLabels : RiskCategory → String
  | .readOnly => "Read-only"
  | .dataExfiltration => "Data exfiltration"
  | .privilegeEscalation => "Privilege escalation"
  | .tenantTakeover => "Tenant takeover potential"
  | .persistence => "Persistence"
  | .lateralMovement => "Lateral movement"
  | .unknown => "Unknown"

/-- `PermissionTranslator.translate` from `translator.py`, parametric in the
loaded rule map.  The default `resource` argument is `"microsoft_graph"` at
every call site in the analyzers, so it is passed explicitly here. -/
def translate (rules : Rules) (permission : String)
    (resource : String := "microsoft_graph") : TranslatedPermission :=
  let key := pyLower permission
  match rules.get key with
  | some rule =>
      let category := parseCategory (rule.category.getD "unknown")
      { permission := permission
        resource := rule.resource.getD resource
        plain_english :=
          rule.plain_english.getD (rule.display_name.getD permission)
        category := category
        category_label := categoryLabels category
        impact_score := rule.impact_score.getD 30
        abuse_scenarios := rule.abuse_scenarios.getD []
        admin_impact_note := rule.admin_impact_note
        is_known := true }
  | none =>
      { permission := permission
        resource := resource
        plain_english :=
          "Permission: " ++ permission ++ " (no translation available)"
        category := .unknown
        category_label := "Unknown - requires review"
        impact_score := 30
        abuse_scenarios := []
        admin_impact_note := none
        is_known := false }

/-- Python `int(x)` on a rational: truncation toward zero. -/
def pyInt (q : ℚ) : Int :=
  if q < 0 then ⌈q⌉ else ⌊q⌋

/-- Split a character list at every character satisfying `p`, keeping
(possibly empty) pieces — the character-level core of Python's
`str.split`. -/
def splitChars (p : Char → Bool) : List Char → List (List Char)
  | [] => [[]]
  | c :: cs =>
      match splitChars p cs, p c with
      | rest, true => [] :: rest
      | r :: rs, false => (c :: r) :: rs
      | [], false => [[c]]

/-- Python `str.split()` (split on whitespace runs, dropping empties), as
used by `OAuth2PermissionGrant.scopes`; the per-piece `strip()` is a no-op
after splitting on whitespace, and empty pieces are filtered exactly as the
comprehension's `if s.strip()` does. -/
def pySplit (s : String) : List String :=
  ((splitChars Char.isWhitespace s.data).map (fun cs => String.mk cs)).filter
    (fun p => p ≠ "")

/-- `Owner` dataclass from `models.py` (only its presence in the `owners`
list is read by the analyzers). -/
structure Owner where
  object_id : String
  deriving DecidableEq, Repr

/-- `Credential` from `models.py`.  `days_until_expiry` and `age_days` are
the wall-clock-derived integers the properties of the same name compute
(`None` when the corresponding datetime is absent). -/
structure Credential where
  credential_type : CredentialType
  display_name : Option String
  days_until_expiry : Option Int
  age_days : Option Int
  deriving DecidableEq, Repr

/-- `Application` from `models.py` (the fields `_score_credentials`
reads). -/
structure Application where
  password_credentials : List Credential := []
  key_credentials : List Credential := []
  deriving DecidableEq, Repr

/-- `Application.all_credentials`. -/
def Application.all_credentials (app : Application) : List Credential :=
  app.password_credentials ++ app.key_credentials

/-- `Application.expiring_credentials`: credentials with
`0 <= days_until_expiry <= 90`, paired with the days remaining and sorted
ascending by it (Python `sorted` is a stable merge sort). -/
def Application.expiring_credentials (app : Application) :
    List (Credential × Int) :=
  (app.all_credentials.filterMap (fun cred =>
      match cred.days_until_expiry with
      | some days => if 0 ≤ days ∧ days ≤ 90 then some (cred, days) else none
      | none => none)).mergeSort (fun a b => a.2 ≤ b.2)

/-- `OAuth2PermissionGrant` from `models.py` (the fields the analyzers
read). -/
structure OAuth2PermissionGrant where
  consent_type : ConsentType
  resource_id : String := ""
  scope : String
  deriving DecidableEq, Repr

/-- `OAuth2PermissionGrant.scopes`: the scope string split on
whitespace. -/
def OAuth2PermissionGrant.scopes (g : OAuth2PermissionGrant) :
    List String :=
  pySplit g.scope

/-- `AppRoleAssignment` from `models.py` (the fields the analyzers
read). -/
structure AppRoleAssignment where
  resource_id : String := ""
  resource_display_name : Option String := none
  role_value : Option String
  deriving DecidableEq, Repr

/-- `SignInActivity` from `models.py`.  `days_since_last_activity` is the
wall-clock-derived integer the property of the same name computes (`None`
when no sign-in datetime is recorded). -/
structure SignInActivity where
  days_since_last_activity : Option Int
  data_available : Bool := true
  deriving DecidableEq, Repr

/-- `ServicePrincipal` from `models.py` (the fields the analyzers read).
`verified_publisher_id` is `verified_publisher.get("verifiedPublisherId")`
of the raw dict, with `none` for an absent dict or key and `some ""` for a
falsy empty value.  `unique_consenting_users` is the Python set as a
deduplicated list. -/
structure ServicePrincipal where
  object_id : String
  app_id : String
  display_name : String
  app_type : AppType := .externalUnknown
  verified_publisher_id : Option String := none
  app_owner_organization_id : Option String := none
  owners : List Owner := []
  oauth2_permission_grants : List OAuth2PermissionGrant := []
  app_role_assignments : List AppRoleAssignment := []
  sign_in_activity : Option SignInActivity := none
  linked_application : Option Application := none
  unique_consenting_users : List String := []
  deriving DecidableEq, Repr

namespace ServicePrincipal

/-- `ServicePrincipal.has_verified_publisher`:
`bool(vp and vp.get("verifiedPublisherId"))`. -/
def has_verified_publisher (sp : ServicePrincipal) : Bool :=
  match sp.verified_publisher_id with
  | some vid => vid ≠ ""
  | none => false

/-- `ServicePrincipal.has_owners`. -/
def has_owners (sp : ServicePrincipal) : Bool :=
  sp.owners.length > 0

/-- `ServicePrincipal.has_delegated_grants`. -/
def has_delegated_grants (sp : ServicePrincipal) : Bool :=
  sp.oauth2_permission_grants.length > 0

/-- `ServicePrincipal.all_delegated_scopes`: the set of scopes over all
grants, as a deduplicated list (Python set iteration order is arbitrary;
only membership and aggregate sums are consumed). -/
def all_delegated_scopes (sp : ServicePrincipal) : List String :=
  ((sp.oauth2_permission_grants.map OAuth2PermissionGrant.scopes).flatten).dedup

/-- `ServicePrincipal.all_app_role_values`: the set of truthy `role_value`s
over all assignments, as a deduplicated list. -/
def all_app_role_values (sp : ServicePrincipal) : List String :=
  ((sp.app_role_assignments.filterMap AppRoleAssignment.role_value).filter
    (fun v => v ≠ "")).dedup

/-- `ServicePrincipal.consent_user_count`. -/
def consent_user_count (sp : ServicePrincipal) : Nat :=
  sp.unique_consenting_users.length

end ServicePrincipal

/-- `RiskFactor` from `models.py`. -/
structure RiskFactor where
  name : String
  description : String
  score : Int
  weight : ℚ
  details : Option String := none
  deriving DecidableEq, Repr

/-- `RiskScore` from `models.py`. -/
structure RiskScore where
  total_score : Int
  risk_level : String
  factors : List RiskFactor := []
  deriving DecidableEq, Repr

/-- `ThresholdConfig` from `config.py`. -/
structure ThresholdConfig where
  credential_expiry_critical : Int
  credential_expiry_high : Int
  credential_expiry_medium : Int
  credential_expiry_low : Int
  inactive_days_threshold : Int
  credential_age_concern : Int
  deriving DecidableEq, Repr

/-- Dataclass field defaults of `ThresholdConfig`. -/
def defaultThresholds : ThresholdConfig where
  credential_expiry_critical := 7
  credential_expiry_high := 30
  credential_expiry_medium := 60
  credential_expiry_low := 90
  inactive_days_threshold := 90
  credential_age_concern := 365

/-- `ScoringWeights` from `config.py`. -/
structure ScoringWeights where
  application_permission_multiplier : ℚ
  delegated_permission_multiplier : ℚ
  user_consent_weight : ℚ
  admin_consent_weight : ℚ
  no_verified_publisher_weight : ℚ
  external_multi_tenant_weight : ℚ
  first_party_microsoft_weight : ℚ
  no_owner_weight : ℚ
  unused_high_privilege_weight : ℚ
  deriving DecidableEq, Repr

/-- Dataclass field defaults of `ScoringWeights` (Python float literals as
rationals). -/
def defaultScoringWeights : ScoringWeights where
  application_permission_multiplier := 3/2
  delegated_permission_multiplier := 1
  user_consent_weight := 6/5
  admin_consent_weight := 1
  no_verified_publisher_weight := 13/10
  external_multi_tenant_weight := 6/5
  first_party_microsoft_weight := 3/10
  no_owner_weight := 13/10
  unused_high_privilege_weight := 7/5

/-- `AllowDenyConfig` from `config.py`. -/
structure AllowDenyConfig where
  allowed_app_ids : List String := []
  denied_app_ids : List String := []
  trusted_publisher_domains : List String := []
  deriving DecidableEq, Repr

/-- The slice of `Config` from `config.py` that the analyzers read. -/
structure Config where
  thresholds : ThresholdConfig := defaultThresholds
  scoring : ScoringWeights := defaultScoringWeights
  allow_deny : AllowDenyConfig := {}
  deriving DecidableEq, Repr

/-- All-default `Config()`. -/
def defaultConfig : Config := {}

/-! ## RiskScorer (`scoring.py`)

Every method below is a direct port of the corresponding
`RiskScorer` method; `cfg` and `rules` stand for the scorer's `config` and
its translator's loaded rule map. -/

/-- `RiskScorer.CRITICAL_THRESHOLD`. -/
def CRITICAL_THRESHOLD : Int := 80

/-- `RiskScorer.HIGH_THRESHOLD`. -/
def HIGH_THRESHOLD : Int := 60

/-- `RiskScorer.MEDIUM_THRESHOLD`. -/
def MEDIUM_THRESHOLD : Int := 40

/-- The per-scope body of `_score_permissions`' delegated loop: translate,
apply the delegated multiplier, and emit a factor only for a strictly
positive score. -/
def delegatedFactor (cfg : Config) (rules : Rules) (scope : String) :
    Option RiskFactor :=
  let translated := translate rules scope
  let base_score := translated.impact_score
  let score :=
    pyInt ((base_score : ℚ) * cfg.scoring.delegated_permission_multiplier)
  if score > 0 then
    some { name := "Delegated: " ++ scope
           description := translated.plain_english
           score := score
           weight := 1
           details := some ("Category: " ++ translated.category_label) }
  else none

/-- The per-role body of `_score_permissions`' application loop: skip the
falsy / "Default Access" sentinels, apply the application multiplier, and
emit a factor only for a strictly positive score. -/
def applicationFactor (cfg : Config) (rules : Rules) (role_value : String) :
    Option RiskFactor :=
  if role_value = "" ∨ role_value = "Default Access" then none
  else
    let translated := translate rules role_value
    let base_score := translated.impact_score
    let score :=
      pyInt ((base_score : ℚ) *
        cfg.scoring.application_permission_multiplier)
    if score > 0 then
      some { name := "Application: " ++ role_value
             description := translated.plain_english
             score := score
             weight := 1
             details := some ("Category: " ++ translated.category_label) }
    else none

/-- The user-consent factor of `_score_permissions`. -/
def consentFactors (cfg : Config) (sp : ServicePrincipal) :
    List RiskFactor :=
  let has_user_consent :=
    sp.oauth2_permission_grants.any
      (fun grant => grant.consent_type == ConsentType.user)
  if has_user_consent then
    [{ name := "User Consent Present"
       description :=
         "Some permissions were granted via user consent (not admin)"
       score := 20
       weight := cfg.scoring.user_consent_weight
       details :=
         some ("Users who consented: " ++ toString sp.consent_user_count) }]
  else []

/-- `RiskScorer._score_permissions`. -/
def scorePermissions (cfg : Config) (rules : Rules)
    (sp : ServicePrincipal) : List RiskFactor :=
  sp.all_delegated_scopes.filterMap (delegatedFactor cfg rules) ++
    sp.all_app_role_values.filterMap (applicationFactor cfg rules) ++
    consentFactors cfg sp

/-- `RiskScorer._score_trust_factors`. -/
def scoreTrustFactors (cfg : Config) (sp : ServicePrincipal) :
    List RiskFactor :=
  if sp.app_type = AppType.firstPartyMicrosoft then
    [{ name := "Microsoft First-Party"
       description := "This is a Microsoft first-party application"
       score := -30
       weight := cfg.scoring.first_party_microsoft_weight }]
  else
    (if ¬ sp.has_verified_publisher then
      [{ name := "No Verified Publisher"
         description := "App does not have a verified publisher"
         score := 15
         weight := cfg.scoring.no_verified_publisher_weight
         : RiskFactor }]
    else []) ++
    (if sp.app_type = AppType.thirdPartyMultiTenant then
      [{ name := "Third-Party Multi-Tenant"
         description := "App is owned by external organization"
         score := 10
         weight := cfg.scoring.external_multi_tenant_weight
         details :=
           some ("Owner org: " ++
             (sp.app_owner_organization_id.getD "Unknown"))
         : RiskFactor }]
    else if sp.app_type = AppType.externalUnknown then
      [{ name := "Unknown Origin"
         description := "App origin could not be determined"
         score := 20
         weight := cfg.scoring.external_multi_tenant_weight
         : RiskFactor }]
    else [])

/-- Maximum translated impact score over `all_delegated_scopes` and the
non-sentinel `all_app_role_values`, starting at `max_impact = 0` — the
inline computation of `_score_ownership`. -/
def maxImpactOwnership (rules : Rules) (sp : ServicePrincipal) : Int :=
  let afterScopes := sp.all_delegated_scopes.foldl
    (fun max_impact scope =>
      max max_impact (translate rules scope).impact_score) 0
  (sp.all_app_role_values.filter
    (fun role => ¬ (role = "" ∨ role = "Default Access"))).foldl
    (fun max_impact role =>
      max max_impact (translate rules role).impact_score) afterScopes

/-- `RiskScorer._score_ownership`. -/
def scoreOwnership (cfg : Config) (rules : Rules)
    (sp : ServicePrincipal) : List RiskFactor :=
  if ¬ sp.has_owners then
    let max_impact := maxImpactOwnership rules sp
    let score : Int := if max_impact ≥ 70 then 15 else 10
    [{ name := "No Owners"
       description := "Service principal has no assigned owners"
       score := score
       weight := cfg.scoring.no_owner_weight
       details := some "Orphaned apps are harder to manage and review" }]
  else []

/-- Maximum translated impact score over `all_delegated_scopes` only — the
inline computation of `_score_activity`'s inactive branch. -/
def maxImpactDelegated (rules : Rules) (sp : ServicePrincipal) : Int :=
  sp.all_delegated_scopes.foldl
    (fun max_impact scope =>
      max max_impact (translate rules scope).impact_score) 0

/-- `RiskScorer._score_activity`. -/
def scoreActivity (cfg : Config) (rules : Rules)
    (sp : ServicePrincipal) : List RiskFactor :=
  match sp.sign_in_activity with
  | none => []
  | some activity =>
    if ¬ activity.data_available then []
    else
      let threshold := cfg.thresholds.inactive_days_threshold
      match activity.days_since_last_activity with
      | none =>
          if sp.all_delegated_scopes ≠ [] ∨ sp.all_app_role_values ≠ [] then
            [{ name := "Never Used"
               description :=
                 "App has permissions but no sign-in activity recorded"
               score := 15
               weight := cfg.scoring.unused_high_privilege_weight
               details := some
                 "Consider reviewing if these permissions are still needed" }]
          else []
      | some days_inactive =>
          if days_inactive > threshold then
            if maxImpactDelegated rules sp ≥ 70 then
              [{ name := "Inactive High-Privilege"
                 description :=
                   "App unused for " ++ toString days_inactive ++
                     " days with high-impact permissions"
                 score := 25
                 weight := cfg.scoring.unused_high_privilege_weight
                 details :=
                   some ("Threshold: " ++ toString threshold ++ " days") }]
            else []
          else []

/-- `RiskScorer._score_credentials`. -/
def scoreCredentials (cfg : Config) (sp : ServicePrincipal) :
    List RiskFactor :=
  match sp.linked_application with
  | none => []
  | some app =>
      let expiring := app.expiring_credentials.filterMap
        (fun cd =>
          if cd.2 ≤ cfg.thresholds.credential_expiry_critical then
            some { name := "Credential Expiring (" ++
                     cd.1.credential_type.value ++ ")"
                   description :=
                     "Credential expires in " ++ toString cd.2 ++ " days"
                   score := 10
                   weight := 6/5
                   details :=
                     some (cd.1.display_name.getD "Unnamed credential")
                   : RiskFactor }
          else none)
      let old := app.all_credentials.filterMap
        (fun cred =>
          match cred.age_days with
          | some age =>
              if age ≠ 0 ∧ age > cfg.thresholds.credential_age_concern then
                some { name := "Old Credential"
                       description :=
                         "Credential is " ++ toString age ++ " days old"
                       score := 5
                       weight := 1
                       details :=
                         some ("Consider rotating: " ++
                           (cred.display_name.getD "Unnamed"))
                       : RiskFactor }
              else none
          | none => none)
      expiring ++ old

/-- `RiskScorer._calculate_total`. -/
def calculateTotal (factors : List RiskFactor) : Int :=
  if factors = [] then 0
  else
    let total : ℚ :=
      (factors.map (fun factor => (factor.score : ℚ) * factor.weight)).sum
    let total := if total > 100 then 100 + (total - 100) * (1/10) else total
    let total := if total > 120 then 120 else total
    max 0 (min 100 (pyInt total))

/-- The deny-list factor injected by `score_service_principal` (lines
84–92 of `scoring.py`). -/
def denyFactors (cfg : Config) (sp : ServicePrincipal) : List RiskFactor :=
  if sp.app_id ∈ cfg.allow_deny.denied_app_ids then
    [{ name := "Deny List"
       description := "App is on the deny list"
       score := 100
       weight := 1
       details := some ("App ID: " ++ sp.app_id) }]
  else []

/-- The factor accumulation of `score_service_principal` past the
allow-list short circuit (deny list, permissions, trust, ownership,
activity, credentials-if-linked, in source order). -/
def accumulateFactors (cfg : Config) (rules : Rules)
    (sp : ServicePrincipal) : List RiskFactor :=
  denyFactors cfg sp ++ scorePermissions cfg rules sp ++
    scoreTrustFactors cfg sp ++ scoreOwnership cfg rules sp ++
    scoreActivity cfg rules sp ++
    (if sp.linked_application.isSome then scoreCredentials cfg sp else [])

/-- `RiskScorer.score_service_principal`. -/
def scoreServicePrincipal (cfg : Config) (rules : Rules)
    (sp : ServicePrincipal) : RiskScore :=
  if sp.app_id ∈ cfg.allow_deny.allowed_app_ids then
    { total_score := 0
      risk_level := "Allowed"
      factors := [{ name := "Allow List"
                    description := "App is on the allow list"
                    score := 0
                    weight := 1 }] }
  else
    let factors := accumulateFactors cfg rules sp
    let total := calculateTotal factors
    let risk_level :=
      if total ≥ CRITICAL_THRESHOLD then "Critical"
      else if total ≥ HIGH_THRESHOLD then "High"
      else if total ≥ MEDIUM_THRESHOLD then "Medium"
      else "Low"
    { total_score := total, risk_level := risk_level, factors := factors }

/-! ## ShadowOAuthDetector (`shadow.py`) -/

/-- `ShadowOAuthFinding` from `models.py`. -/
structure ShadowOAuthFinding where
  finding_type : String
  severity : String
  title : String
  description : String
  service_principal_id : String
  service_principal_name : String
  affected_scopes : List String := []
  affected_user_count : Nat := 0
  recommendation : Option String := none
  deriving DecidableEq, Repr

/-- The slice of `AnalysisResult` from `models.py` that `detect` reads. -/
structure AnalysisResult where
  service_principals : List ServicePrincipal := []
  sign_in_data_available : Bool := false
  deriving DecidableEq, Repr

/-- `HIGH_IMPACT_SCOPES` from `shadow.py` (a Python set; only membership
and intersections are consumed). -/
def HIGH_IMPACT_SCOPES : List String :=
  ["Directory.ReadWrite.All",
   "RoleManagement.ReadWrite.Directory",
   "Application.ReadWrite.All",
   "AppRoleAssignment.ReadWrite.All",
   "Mail.ReadWrite",
   "Mail.Read",
   "Files.ReadWrite.All",
   "Files.Read.All",
   "Sites.ReadWrite.All",
   "User.ReadWrite.All",
   "Group.ReadWrite.All",
   "GroupMember.ReadWrite.All",
   "Chat.Read.All",
   "ChannelMessage.Read.All"]

/-- Set intersection of a deduplicated scope list with another list, result
deduplicated (Python `set & set`). -/
def scopeInter (l r : List String) : List String :=
  (l.filter (fun s => s ∈ r)).dedup

/-- Set union of two deduplicated scope lists (Python `set | set`). -/
def scopeUnion (l r : List String) : List String :=
  (l ++ r).dedup

/-- `ShadowOAuthDetector._detect_external_delegated_grants`. -/
def detectExternalDelegatedGrants (sp : ServicePrincipal) :
    List ShadowOAuthFinding :=
  if ¬ (sp.app_type = AppType.thirdPartyMultiTenant ∨
      sp.app_type = AppType.externalUnknown) then []
  else if ¬ sp.has_delegated_grants then []
  else
    let high_impact := scopeInter sp.all_delegated_scopes HIGH_IMPACT_SCOPES
    let all_scopes := sp.all_delegated_scopes
    if high_impact ≠ [] then
      [{ finding_type := "external_delegated_high_impact"
         severity := "High"
         title := "External App with High-Impact Delegated Permissions"
         description :=
           "Third-party app '" ++ sp.display_name ++
             "' has delegated permissions including high-impact scopes. " ++
             "This app is not owned by your tenant."
         service_principal_id := sp.object_id
         service_principal_name := sp.display_name
         affected_scopes := high_impact
         affected_user_count := sp.consent_user_count
         recommendation := some
           ("Review if this app is still needed. Verify the publisher and " ++
            "consider reducing permissions or removing the app.") }]
    else if all_scopes ≠ [] then
      [{ finding_type := "external_delegated"
         severity := "Medium"
         title := "External App with Delegated Permissions"
         description :=
           "Third-party app '" ++ sp.display_name ++
             "' has delegated permissions. " ++
             "This app is not owned by your tenant."
         service_principal_id := sp.object_id
         service_principal_name := sp.display_name
         affected_scopes := all_scopes
         affected_user_count := sp.consent_user_count
         recommendation := some
           "Verify this app is authorized for use in your organization." }]
    else []

/-- `ShadowOAuthDetector._detect_user_consent_high_impact`. -/
def detectUserConsentHighImpact (sp : ServicePrincipal) :
    List ShadowOAuthFinding :=
  let user_consented_scopes :=
    ((sp.oauth2_permission_grants.filter
        (fun grant => grant.consent_type == ConsentType.user)).map
      OAuth2PermissionGrant.scopes).flatten.dedup
  if user_consented_scopes = [] then []
  else
    let high_impact := scopeInter user_consented_scopes HIGH_IMPACT_SCOPES
    if high_impact ≠ [] then
      [{ finding_type := "user_consent_high_impact"
         severity := "High"
         title := "User-Consented App with High-Impact Permissions"
         description :=
           "App '" ++ sp.display_name ++
             "' received high-impact permissions via user consent " ++
             "(not admin consent). " ++ toString sp.consent_user_count ++
             " user(s) granted consent."
         service_principal_id := sp.object_id
         service_principal_name := sp.display_name
         affected_scopes := high_impact
         affected_user_count := sp.consent_user_count
         recommendation := some
           ("Review user consent settings. Consider blocking user consent " ++
            "for high-impact permissions and requiring admin approval.") }]
    else []

/-- `ShadowOAuthDetector._detect_offline_access_risk`. -/
def detectOfflineAccessRisk (sp : ServicePrincipal) :
    List ShadowOAuthFinding :=
  if "offline_access" ∉ sp.all_delegated_scopes then []
  else
    let other_scopes := sp.all_delegated_scopes.filter
      (fun s => s ∉ ["offline_access", "openid", "profile", "email"])
    let high_impact := scopeInter other_scopes HIGH_IMPACT_SCOPES
    if high_impact ≠ [] then
      [{ finding_type := "offline_access_high_impact"
         severity := "Medium"
         title := "Long-Lived Token Risk with High-Impact Permissions"
         description :=
           "App '" ++ sp.display_name ++
             "' has offline_access (refresh tokens) combined with " ++
             "high-impact permissions. This allows persistent access " ++
             "even after password changes."
         service_principal_id := sp.object_id
         service_principal_name := sp.display_name
         affected_scopes := scopeUnion high_impact ["offline_access"]
         affected_user_count := sp.consent_user_count
         recommendation := some
           ("Consider if offline_access is necessary. Review token " ++
            "lifetime policies and implement Conditional Access for app " ++
            "access controls.") }]
    else []

/-- `ShadowOAuthDetector._detect_inactive_privileged`. -/
def detectInactivePrivileged (cfg : Config) (sp : ServicePrincipal)
    (result : AnalysisResult) : List ShadowOAuthFinding :=
  if ¬ result.sign_in_data_available then []
  else
    match sp.sign_in_activity with
    | none => []
    | some activity =>
      if ¬ activity.data_available then []
      else
        let threshold := cfg.thresholds.inactive_days_threshold
        let status : Option String :=
          match activity.days_since_last_activity with
          | none => some "never been used"
          | some days_inactive =>
              if days_inactive > threshold then
                some ("not been used in " ++ toString days_inactive ++
                  " days")
              else none
        match status with
        | none => []
        | some inactive_msg =>
            let all_perms :=
              scopeUnion sp.all_delegated_scopes sp.all_app_role_values
            let high_impact := scopeInter all_perms HIGH_IMPACT_SCOPES
            if high_impact ≠ [] then
              [{ finding_type := "inactive_privileged"
                 severity := "High"
                 title := "Inactive App with High-Impact Permissions"
                 description :=
                   "App '" ++ sp.display_name ++ "' has " ++ inactive_msg ++
                     " but retains high-impact permissions."
                 service_principal_id := sp.object_id
                 service_principal_name := sp.display_name
                 affected_scopes := high_impact
                 recommendation := some
                   ("Review if this app is still needed. Consider removing " ++
                    "or reducing permissions for unused apps (inactive " ++
                    "threshold: " ++ toString threshold ++ " days).") }]
            else []

/-- `ShadowOAuthDetector._detect_orphaned_privileged`. -/
def detectOrphanedPrivileged (sp : ServicePrincipal) :
    List ShadowOAuthFinding :=
  if sp.has_owners then []
  else
    let all_perms :=
      scopeUnion sp.all_delegated_scopes sp.all_app_role_values
    let high_impact := scopeInter all_perms HIGH_IMPACT_SCOPES
    if high_impact ≠ [] then
      [{ finding_type := "orphaned_privileged"
         severity := "High"
         title := "Orphaned App with High-Impact Permissions"
         description :=
           "App '" ++ sp.display_name ++
             "' has no assigned owners but has high-impact permissions."
         service_principal_id := sp.object_id
         service_principal_name := sp.display_name
         affected_scopes := high_impact
         recommendation := some
           ("Assign owners to this app to ensure accountability. " ++
            "Consider if the permissions are still needed.") }]
    else if all_perms ≠ [] then
      [{ finding_type := "orphaned_with_permissions"
         severity := "Medium"
         title := "Orphaned App with Permissions"
         description :=
           "App '" ++ sp.display_name ++
             "' has no assigned owners but has active permissions."
         service_principal_id := sp.object_id
         service_principal_name := sp.display_name
         affected_scopes := all_perms
         recommendation :=
           some "Assign owners to this app to ensure accountability." }]
    else []

/-- `ShadowOAuthDetector._detect_unknown_publisher_high_impact`. -/
def detectUnknownPublisherHighImpact (sp : ServicePrincipal) :
    List ShadowOAuthFinding :=
  if sp.has_verified_publisher then []
  else if sp.app_type = AppType.tenantOwned then []
  else
    let all_perms :=
      scopeUnion sp.all_delegated_scopes sp.all_app_role_values
    let high_impact := scopeInter all_perms HIGH_IMPACT_SCOPES
    if high_impact ≠ [] then
      [{ finding_type := "unverified_publisher_high_impact"
         severity := "High"
         title := "Unverified Publisher with High-Impact Permissions"
         description :=
           "App '" ++ sp.display_name ++
             "' has no verified publisher but has high-impact permissions."
         service_principal_id := sp.object_id
         service_principal_name := sp.display_name
         affected_scopes := high_impact
         recommendation := some
           ("Verify the legitimacy of this app. Consider requiring " ++
            "verified publishers for apps with high-impact permissions.") }]
    else []

/-- `severity_order.get(f.severity, 99)` from `detect`'s final sort. -/
def severityRank (severity : String) : Nat :=
  if severity = "Critical" then 0
  else if severity = "High" then 1
  else if severity = "Medium" then 2
  else if severity = "Low" then 3
  else 99

/-- The per-service-principal body of `ShadowOAuthDetector.detect`'s loop:
skip first-party Microsoft and allow-listed apps, otherwise run the six
detection rules in order. -/
def detectForSP (cfg : Config) (result : AnalysisResult)
    (sp : ServicePrincipal) : List ShadowOAuthFinding :=
  if sp.app_type = AppType.firstPartyMicrosoft then []
  else if sp.app_id ∈ cfg.allow_deny.allowed_app_ids then []
  else
    detectExternalDelegatedGrants sp ++
    detectUserConsentHighImpact sp ++
    detectOfflineAccessRisk sp ++
    detectInactivePrivileged cfg sp result ++
    detectOrphanedPrivileged sp ++
    detectUnknownPublisherHighImpact sp

/-- `ShadowOAuthDetector.detect`: accumulate per-identity findings and
stably sort by severity rank (Python `list.sort` is stable). -/
def detect (cfg : Config) (result : AnalysisResult) :
    List ShadowOAuthFinding :=
  ((result.service_principals.map (detectForSP cfg result)).flatten).mergeSort
    (fun f g => severityRank f.severity ≤ severityRank g.severity)

/-- The name-resolution step of `get_high_impact_permissions`: start from
`rule.get("display_name", perm_key)`, then the `for orig_key in self.rules`
loop overwrites it with the first stored key whose case-fold equals
`perm_key` (breaking at the first hit). -/
def resolvePermName (rules : Rules) (perm_key : String) (rule : Rule) :
    String :=
  let fallback := rule.display_name.getD perm_key
  match rules.find? (fun kr2 => pyLower kr2.1 == perm_key) with
  | some kr2 => kr2.1
  | none => fallback

/-- `PermissionTranslator.get_high_impact_permissions`: keep the rules
whose `rule.get("impact_score", 0)` is at least `min_score`, pair each
with its resolved name and translation, and sort descending by translated
impact score (Python `sorted(..., reverse=True)` is stable). -/
def getHighImpactPermissions (rules : Rules) (min_score : Int) :
    List (String × TranslatedPermission) :=
  let results := rules.filterMap (fun kr =>
    if kr.2.impact_score.getD 0 ≥ min_score then
      some (resolvePermName rules kr.1 kr.2,
        translate rules (resolvePermName rules kr.1 kr.2))
    else none)
  results.mergeSort (fun a b => b.2.impact_score ≤ a.2.impact_score)

/-! ## Claim-side definitions

The definitions below state spec sentences in Lean so the theorems can
compare the program against them; they are written from the spec's words,
not from the source. -/

/-- The fixed threshold mapping from a clamped total to a risk level
stated in the spec: Critical if total ≥ 80, High if ≥ 60, Medium if ≥ 40,
otherwise Low. -/
def riskLevelOf (total : Int) : String :=
  if total ≥ 80 then "Critical"
  else if total ≥ 60 then "High"
  else if total ≥ 40 then "Medium"
  else "Low"

/-- The weighted factor sum `Σ score·weight` (the accumulation loop of
`_calculate_total` before normalization). -/
def weightedSum (factors : List RiskFactor) : ℚ :=
  (factors.map (fun factor => (factor.score : ℚ) * factor.weight)).sum

/-- The simplified total of claim C10:
`max(0, min(100, int(t')))` where `t'` scales the excess above 100 by 0.1
and the intermediate hard cap at 120 is dropped. -/
def calculateTotalSimplified (factors : List RiskFactor) : Int :=
  let total := weightedSum factors
  let total := if total > 100 then 100 + (total - 100) * (1/10) else total
  max 0 (min 100 (pyInt total))

/-- Claim-side maximum translated impact score across all held permissions
— delegated scopes and application roles — as claim C6 words it. -/
def maxImpactAllPermissions (rules : Rules) (sp : ServicePrincipal) : Int :=
  ((sp.all_delegated_scopes ++ sp.all_app_role_values).map
    (fun p => (translate rules p).impact_score)).foldl max 0

/-- Claim-side version of `get_high_impact_permissions` as claim C8 words
it: keep exactly the rules whose impact score — defaulting to 30 when the
rule omits the field — is at least `min_score`, sorted descending by
impact; the name-resolution step is the program's. -/
def claimedHighImpact (rules : Rules) (min_score : Int) :
    List (String × TranslatedPermission) :=
  let results := rules.filterMap (fun kr =>
    if kr.2.impact_score.getD 30 ≥ min_score then
      some (resolvePermName rules kr.1 kr.2,
        translate rules (resolvePermName rules kr.1 kr.2))
    else none)
  results.mergeSort (fun a b => b.2.impact_score ≤ a.2.impact_score)

/-! ## Helper lemmas -/

/-- `calculateTotal` never returns a negative total. -/
theorem calculateTotal_nonneg (factors : List RiskFactor) :
    0 ≤ calculateTotal factors := by
  unfold calculateTotal
  split
  · exact le_refl 0
  · exact le_max_left 0 _

/-- `calculateTotal` never exceeds 100. -/
theorem calculateTotal_le_100 (factors : List RiskFactor) :
    calculateTotal factors ≤ 100 := by
  unfold calculateTotal
  split
  · norm_num
  · exact max_le (by norm_num) (min_le_left _ _)

/-! ## Claims -/

/-- **C1.** For every service principal not on the allow list,
`score_service_principal` returns a `total_score` that is an integer in
`[0, 100]`, and its `risk_level` is the deterministic function of that
clamped total given by the fixed thresholds: Critical if total ≥ 80, High
if ≥ 60, Medium if ≥ 40, otherwise Low. -/
theorem c1_total_in_range_and_level_thresholded (cfg : Config)
    (rules : Rules) (sp : ServicePrincipal)
    (h : sp.app_id ∉ cfg.allow_deny.allowed_app_ids) :
    0 ≤ (scoreServicePrincipal cfg rules sp).total_score ∧
    (scoreServicePrincipal cfg rules sp).total_score ≤ 100 ∧
    (scoreServicePrincipal cfg rules sp).risk_level =
      riskLevelOf (scoreServicePrincipal cfg rules sp).total_score := by
  unfold scoreServicePrincipal
  rw [if_neg h]
  refine ⟨calculateTotal_nonneg _, calculateTotal_le_100 _, rfl⟩

/-- Witness for C1: a concrete non-allow-listed service principal. -/
theorem c1_witness :
    "w1-app" ∉ defaultConfig.allow_deny.allowed_app_ids ∧
    (0 ≤ (scoreServicePrincipal defaultConfig []
        { object_id := "w1", app_id := "w1-app", display_name := "W1" }
      ).total_score ∧
     (scoreServicePrincipal defaultConfig []
        { object_id := "w1", app_id := "w1-app", display_name := "W1" }
      ).total_score ≤ 100 ∧
     (scoreServicePrincipal defaultConfig []
        { object_id := "w1", app_id := "w1-app", display_name := "W1" }
      ).risk_level =
       riskLevelOf ((scoreServicePrincipal defaultConfig []
        { object_id := "w1", app_id := "w1-app", display_name := "W1" }
      ).total_score)) :=
  ⟨by decide,
   c1_total_in_range_and_level_thresholded defaultConfig []
     { object_id := "w1", app_id := "w1-app", display_name := "W1" }
     (by decide)⟩

/-- **C2.** For every service principal whose `app_id` is in the configured
allow set, `score_service_principal` returns `total_score` exactly 0,
`risk_level` Allowed, and a single explanatory factor, regardless of the
identity's permissions, trust class, owners, activity, credentials, or
deny-list membership. -/
theorem c2_allow_list_short_circuits (cfg : Config) (rules : Rules)
    (sp : ServicePrincipal)
    (h : sp.app_id ∈ cfg.allow_deny.allowed_app_ids) :
    (scoreServicePrincipal cfg rules sp).total_score = 0 ∧
    (scoreServicePrincipal cfg rules sp).risk_level = "Allowed" ∧
    (scoreServicePrincipal cfg rules sp).factors =
      [{ name := "Allow List"
         description := "App is on the allow list"
         score := 0
         weight := 1 }] := by
  unfold scoreServicePrincipal
  rw [if_pos h]
  exact ⟨rfl, rfl, rfl⟩

/-- Witness for C2: an allow-listed service principal carrying a denied id,
a high-impact grant, no owners, and user consent still scores 0/Allowed. -/
theorem c2_witness :
    "w2-app" ∈
      (Config.mk defaultThresholds defaultScoringWeights
        ⟨["w2-app"], ["w2-app"], []⟩).allow_deny.allowed_app_ids ∧
    (scoreServicePrincipal
        (Config.mk defaultThresholds defaultScoringWeights
          ⟨["w2-app"], ["w2-app"], []⟩)
        [("mail.read", { impact_score := some 80 })]
        { object_id := "w2", app_id := "w2-app", display_name := "W2",
          app_type := .externalUnknown,
          oauth2_permission_grants :=
            [{ consent_type := .user, scope := "Mail.Read" }] }
      ).total_score = 0 :=
  ⟨by decide,
   (c2_allow_list_short_circuits
      (Config.mk defaultThresholds defaultScoringWeights
        ⟨["w2-app"], ["w2-app"], []⟩)
      [("mail.read", { impact_score := some 80 })]
      { object_id := "w2", app_id := "w2-app", display_name := "W2",
        app_type := .externalUnknown,
        oauth2_permission_grants :=
          [{ consent_type := .user, scope := "Mail.Read" }] }
      (by decide)).1⟩

/-- **C3.** For every permission string X not present in the catalog's rule
map, `translate(X)` returns `is_known = false`, `impact_score = 30`, and
category Unknown; and `translate` is case-insensitive: any two casings of
the same string agree on category and impact score. -/
theorem c3_unknown_default_and_case_insensitive (rules : Rules) :
    (∀ X res, Rules.get rules (pyLower X) = none →
      (translate rules X res).is_known = false ∧
      (translate rules X res).impact_score = 30 ∧
      (translate rules X res).category = RiskCategory.unknown) ∧
    (∀ X Y res, pyLower X = pyLower Y →
      (translate rules X res).category = (translate rules Y res).category ∧
      (translate rules X res).impact_score =
        (translate rules Y res).impact_score) := by
  constructor
  · intro X res h
    simp [translate, h]
  · intro X Y res h
    simp only [translate, h]
    cases hg : Rules.get rules (pyLower Y) <;> simp [hg]

/-- Witness for C3: the unknown permission "Custom.Unknown.Scope" against a
one-rule catalog, and the casings "Mail.Read" / "MAIL.read". -/
theorem c3_witness :
    ((translate [("mail.read", { impact_score := some 70 })]
        "Custom.Unknown.Scope" "microsoft_graph").is_known = false ∧
     (translate [("mail.read", { impact_score := some 70 })]
        "Custom.Unknown.Scope" "microsoft_graph").impact_score = 30 ∧
     (translate [("mail.read", { impact_score := some 70 })]
        "Custom.Unknown.Scope" "microsoft_graph").category =
       RiskCategory.unknown) ∧
    ((translate [("mail.read", { impact_score := some 70 })]
        "Mail.Read" "microsoft_graph").category =
       (translate [("mail.read", { impact_score := some 70 })]
          "MAIL.read" "microsoft_graph").category ∧
     (translate [("mail.read", { impact_score := some 70 })]
        "Mail.Read" "microsoft_graph").impact_score =
       (translate [("mail.read", { impact_score := some 70 })]
          "MAIL.read" "microsoft_graph").impact_score) :=
  ⟨(c3_unknown_default_and_case_insensitive
      [("mail.read", { impact_score := some 70 })]).1
      "Custom.Unknown.Scope" "microsoft_graph" (by decide),
   (c3_unknown_default_and_case_insensitive
      [("mail.read", { impact_score := some 70 })]).2
      "Mail.Read" "MAIL.read" "microsoft_graph" (by decide)⟩

/-- **C10.** For every factor list, `_calculate_total` equals the simpler
function `max(0, min(100, int(t')))` where `t'` scales the excess of the
weighted sum above 100 by 0.1; the intermediate hard cap at 120 never
changes the returned value. -/
theorem c10_cap_at_120_is_redundant (factors : List RiskFactor) :
    calculateTotal factors = calculateTotalSimplified factors := by
  simp only [calculateTotal, calculateTotalSimplified, weightedSum]
  split
  · rename_i hempty
    rw [hempty]
    norm_num [pyInt]
  · set t : ℚ :=
      (factors.map (fun factor => (factor.score : ℚ) * factor.weight)).sum
      with ht
    by_cases h100 : t > 100
    · rw [if_pos h100]
      set u : ℚ := 100 + (t - 100) * (1/10) with hu
      by_cases h120 : u > 120
      · rw [if_pos h120]
        have hpy120 : pyInt (120 : ℚ) = 120 := by
          norm_num [pyInt]
        have hunn : ¬ ((u : ℚ) < 0) := by
          push_neg
          nlinarith
        have hfl : (120 : ℤ) ≤ ⌊u⌋ := by
          rw [Int.le_floor]
          push_cast
          linarith
        have hmin : min (100 : ℤ) (pyInt u) = 100 := by
          rw [min_eq_left]
          · unfold pyInt
            rw [if_neg hunn]
            omega
        rw [hpy120, hmin]
        norm_num
      · rw [if_neg h120]
    · rw [if_neg h100]
      have hnc : ¬ (t > 120) := by
        push_neg at h100 ⊢
        linarith
      rw [if_neg hnc]

/-- **C9.** For every entity graph and configuration, the output of
`detect` is completely unchanged under any modification of the configured
deny set (`denied_app_ids`): deny-list membership influences risk scoring
only and never adds, removes, or reorders shadow findings (the only
identity-level skips in `detect` are allow-list membership and
first-party-Microsoft classification, neither of which reads the deny
set). -/
theorem c9_detect_ignores_deny_list (cfg : Config) (d1 d2 : List String)
    (result : AnalysisResult) :
    detect { cfg with
      allow_deny := { cfg.allow_deny with denied_app_ids := d1 } } result =
    detect { cfg with
      allow_deny := { cfg.allow_deny with denied_app_ids := d2 } } result := by
  have h : detectForSP { cfg with
        allow_deny := { cfg.allow_deny with denied_app_ids := d1 } } result =
      detectForSP { cfg with
        allow_deny := { cfg.allow_deny with denied_app_ids := d2 } } result := by
    funext sp
    simp only [detectForSP, detectInactivePrivileged]
  simp only [detect, h]

/-- Claim-side construction for C7: the identity that additionally holds
permission value `v` as an admin-consented delegated scope. -/
def addDelegatedGrant (sp : ServicePrincipal) (v : String) :
    ServicePrincipal :=
  { sp with oauth2_permission_grants := sp.oauth2_permission_grants ++
      [{ consent_type := ConsentType.admin, scope := v }] }

/-- Claim-side construction for C7: the otherwise-identical identity that
instead holds permission value `v` as an application role. -/
def addAppRoleAssignment (sp : ServicePrincipal) (v : String) :
    ServicePrincipal :=
  { sp with app_role_assignments := sp.app_role_assignments ++
      [{ role_value := some v }] }

/-- The concrete first-party Microsoft identity of the C4 counterexample:
one admin-consented delegated scope unknown to the catalog, an owner, no
telemetry, no linked registration. -/
def c4FirstPartySP : ServicePrincipal :=
  { object_id := "sp-fp", app_id := "fp-app", display_name := "FP",
    app_type := .firstPartyMicrosoft,
    owners := [{ object_id := "o1" }],
    oauth2_permission_grants :=
      [{ consent_type := .admin, scope := "custom.scope" }] }

/-- The base identity of the C7 counterexample: tenant-owned, verified
publisher, an owner, and no permissions of its own. -/
def c7Base : ServicePrincipal :=
  { object_id := "sp7", app_id := "a7", display_name := "B7",
    app_type := .tenantOwned,
    verified_publisher_id := some "vp",
    owners := [{ object_id := "o1" }] }

/-- The one-rule catalog of the C7 counterexample: `Mail.X` has impact
100. -/
def c7Rules : Rules := [("mail.x", { impact_score := some 100 })]

/-- `pyInt` on an integer is the identity. -/
theorem pyInt_intCast (n : ℤ) : pyInt ((n : ℚ)) = n := by
  unfold pyInt
  split
  · exact Int.ceil_intCast n
  · exact Int.floor_intCast n

/-! ### Factor-sign lemmas for C5 -/

/-- `weightedSum` distributes over list append. -/
theorem weightedSum_append (a b : List RiskFactor) :
    weightedSum (a ++ b) = weightedSum a + weightedSum b := by
  unfold weightedSum
  rw [List.map_append, List.sum_append]

/-- A factor list whose members all contribute nonnegatively has a
nonnegative weighted sum. -/
theorem weightedSum_nonneg {fs : List RiskFactor}
    (h : ∀ f ∈ fs, 0 ≤ (f.score : ℚ) * f.weight) : 0 ≤ weightedSum fs := by
  unfold weightedSum
  apply List.sum_nonneg
  intro x hx
  rcases List.mem_map.mp hx with ⟨f, hf, rfl⟩
  exact h f hf

/-- `weightedSum` of a singleton. -/
theorem weightedSum_singleton (f : RiskFactor) :
    weightedSum [f] = (f.score : ℚ) * f.weight := by
  simp [weightedSum]

/-- Every factor emitted by `_score_permissions` contributes nonnegatively
when the user-consent weight is nonnegative (per-permission factors are
only emitted with a strictly positive score and weight 1). -/
theorem scorePermissions_nonneg (cfg : Config) (rules : Rules)
    (sp : ServicePrincipal)
    (hw : 0 ≤ cfg.scoring.user_consent_weight) :
    ∀ f ∈ scorePermissions cfg rules sp, 0 ≤ (f.score : ℚ) * f.weight := by
  intro f hf
  unfold scorePermissions at hf
  simp only [List.mem_append, List.mem_filterMap] at hf
  rcases hf with (⟨s, _, hmk⟩ | ⟨w, _, hmk⟩) | hc
  · unfold delegatedFactor at hmk
    dsimp only at hmk
    split at hmk
    · rename_i hpos
      rcases Option.some.inj hmk with rfl
      simpa using Int.cast_nonneg.mpr (le_of_lt hpos)
    · exact absurd hmk (by simp)
  · unfold applicationFactor at hmk
    dsimp only at hmk
    split at hmk
    · exact absurd hmk (by simp)
    · split at hmk
      · rename_i hpos
        rcases Option.some.inj hmk with rfl
        simpa using Int.cast_nonneg.mpr (le_of_lt hpos)
      · exact absurd hmk (by simp)
  · unfold consentFactors at hc
    dsimp only at hc
    split at hc
    · rcases List.mem_singleton.mp hc with rfl
      simpa using by positivity
    · exact absurd hc (by simp)

/-- Every factor emitted by `_score_trust_factors` for a non-first-party
identity contributes nonnegatively when the publisher and multi-tenant
weights are nonnegative. -/
theorem scoreTrustFactors_nonneg (cfg : Config) (sp : ServicePrincipal)
    (hfp : sp.app_type ≠ AppType.firstPartyMicrosoft)
    (hw1 : 0 ≤ cfg.scoring.no_verified_publisher_weight)
    (hw2 : 0 ≤ cfg.scoring.external_multi_tenant_weight) :
    ∀ f ∈ scoreTrustFactors cfg sp, 0 ≤ (f.score : ℚ) * f.weight := by
  intro f hf
  unfold scoreTrustFactors at hf
  rw [if_neg hfp] at hf
  simp only [List.mem_append] at hf
  rcases hf with hl | hr
  · split at hl
    · rcases List.mem_singleton.mp hl with rfl
      simpa using by positivity
    · exact absurd hl (by simp)
  · split at hr
    · rcases List.mem_singleton.mp hr with rfl
      simpa using by positivity
    · split at hr
      · rcases List.mem_singleton.mp hr with rfl
        simpa using by positivity
      · exact absurd hr (by simp)

/-- Every factor emitted by `_score_ownership` contributes nonnegatively
when the no-owner weight is nonnegative. -/
theorem scoreOwnership_nonneg (cfg : Config) (rules : Rules)
    (sp : ServicePrincipal) (hw : 0 ≤ cfg.scoring.no_owner_weight) :
    ∀ f ∈ scoreOwnership cfg rules sp, 0 ≤ (f.score : ℚ) * f.weight := by
  intro f hf
  unfold scoreOwnership at hf
  split at hf
  · rcases List.mem_singleton.mp hf with rfl
    simp only
    apply mul_nonneg _ hw
    split <;> norm_num
  · exact absurd hf (by simp)

/-- Every factor emitted by `_score_activity` contributes nonnegatively
when the unused-high-privilege weight is nonnegative. -/
theorem scoreActivity_nonneg (cfg : Config) (rules : Rules)
    (sp : ServicePrincipal)
    (hw : 0 ≤ cfg.scoring.unused_high_privilege_weight) :
    ∀ f ∈ scoreActivity cfg rules sp, 0 ≤ (f.score : ℚ) * f.weight := by
  intro f hf
  unfold scoreActivity at hf
  dsimp only at hf
  split at hf
  · exact absurd hf (by simp)
  · split at hf
    · exact absurd hf (by simp)
    · split at hf
      · split at hf
        · rcases List.mem_singleton.mp hf with rfl
          simpa using by positivity
        · exact absurd hf (by simp)
      · split at hf
        · split at hf
          · rcases List.mem_singleton.mp hf with rfl
            simpa using by positivity
          · exact absurd hf (by simp)
        · exact absurd hf (by simp)

/-- Every factor emitted by `_score_credentials` contributes nonnegatively
(their scores and weights are positive constants). -/
theorem scoreCredentials_nonneg (cfg : Config) (sp : ServicePrincipal) :
    ∀ f ∈ scoreCredentials cfg sp, 0 ≤ (f.score : ℚ) * f.weight := by
  intro f hf
  unfold scoreCredentials at hf
  split at hf
  · exact absurd hf (by simp)
  · simp only [List.mem_append, List.mem_filterMap] at hf
    rcases hf with ⟨cd, _, hmk⟩ | ⟨cred, _, hmk⟩
    · split at hmk
      · rcases Option.some.inj hmk with rfl
        norm_num
      · exact absurd hmk (by simp)
    · split at hmk
      · split at hmk
        · rcases Option.some.inj hmk with rfl
          norm_num
        · exact absurd hmk (by simp)
      · exact absurd hmk (by simp)

/-- A weighted sum of at least 100 forces `_calculate_total` to return
exactly the clamp ceiling 100. -/
theorem calculateTotal_eq_100_of_ge {fs : List RiskFactor}
    (h : 100 ≤ weightedSum fs) : calculateTotal fs = 100 := by
  have hne : fs ≠ [] := by
    intro hempty
    rw [hempty] at h
    norm_num [weightedSum] at h
  have ht : (fs.map (fun factor => (factor.score : ℚ) * factor.weight)).sum =
      weightedSum fs := rfl
  simp only [calculateTotal]
  rw [if_neg hne, ht]
  set t : ℚ := weightedSum fs with htdef
  by_cases h100 : t > 100
  · rw [if_pos h100]
    set u : ℚ := 100 + (t - 100) * (1/10) with hu
    have hu100 : (100 : ℚ) ≤ u := by
      rw [hu]
      nlinarith
    by_cases h120 : u > 120
    · rw [if_pos h120]
      have hp : pyInt (120 : ℚ) = 120 := by norm_num [pyInt]
      rw [hp]
      norm_num
    · rw [if_neg h120]
      have hnn : ¬ (u < 0) := by push_neg; linarith
      have hfl : (100 : ℤ) ≤ ⌊u⌋ := by
        rw [Int.le_floor]
        push_cast
        linarith
      unfold pyInt
      rw [if_neg hnn]
      omega
  · have heq : t = 100 := le_antisymm (by push_neg at h100; exact h100) h
    have hnc : ¬ (t > 120) := by
      push_neg
      rw [heq]
      norm_num
    rw [if_neg h100, if_neg hnc, heq]
    norm_num [pyInt]

/-- `score_service_principal` past the allow-list short circuit, written
through `accumulateFactors` and `riskLevelOf`. -/
theorem scoreServicePrincipal_not_allowed (cfg : Config) (rules : Rules)
    (sp : ServicePrincipal)
    (h : sp.app_id ∉ cfg.allow_deny.allowed_app_ids) :
    scoreServicePrincipal cfg rules sp =
      { total_score := calculateTotal (accumulateFactors cfg rules sp)
        risk_level :=
          riskLevelOf (calculateTotal (accumulateFactors cfg rules sp))
        factors := accumulateFactors cfg rules sp } := by
  unfold scoreServicePrincipal
  rw [if_neg h]
  rfl

/-- **C5.** For every deny-listed, non-allow-listed service principal, the
factor list contains a deny factor of score 100 and weight 1.0, and (no
negative first-party trust factor being present and the configured weights
being nonnegative, all other emitted factors being nonnegative) the
pre-clamp weighted total is at least 100, so the final clamped score
reaches the 100 ceiling and the level is Critical. -/
theorem c5_deny_list_reaches_ceiling (cfg : Config) (rules : Rules)
    (sp : ServicePrincipal)
    (hdeny : sp.app_id ∈ cfg.allow_deny.denied_app_ids)
    (hallow : sp.app_id ∉ cfg.allow_deny.allowed_app_ids)
    (hfp : sp.app_type ≠ AppType.firstPartyMicrosoft)
    (hw1 : 0 ≤ cfg.scoring.user_consent_weight)
    (hw2 : 0 ≤ cfg.scoring.no_verified_publisher_weight)
    (hw3 : 0 ≤ cfg.scoring.external_multi_tenant_weight)
    (hw4 : 0 ≤ cfg.scoring.no_owner_weight)
    (hw5 : 0 ≤ cfg.scoring.unused_high_privilege_weight) :
    ({ name := "Deny List"
       description := "App is on the deny list"
       score := 100
       weight := 1
       details := some ("App ID: " ++ sp.app_id) } : RiskFactor) ∈
      (scoreServicePrincipal cfg rules sp).factors ∧
    100 ≤ weightedSum (scoreServicePrincipal cfg rules sp).factors ∧
    (scoreServicePrincipal cfg rules sp).total_score = 100 ∧
    (scoreServicePrincipal cfg rules sp).risk_level = "Critical" := by
  rw [scoreServicePrincipal_not_allowed cfg rules sp hallow]
  have hdf : denyFactors cfg sp =
      [{ name := "Deny List"
         description := "App is on the deny list"
         score := 100
         weight := 1
         details := some ("App ID: " ++ sp.app_id) }] := by
    unfold denyFactors
    rw [if_pos hdeny]
  have h100d : weightedSum (denyFactors cfg sp) = 100 := by
    rw [hdf, weightedSum_singleton]
    norm_num
  have hsum : 100 ≤ weightedSum (accumulateFactors cfg rules sp) := by
    unfold accumulateFactors
    rw [weightedSum_append, weightedSum_append, weightedSum_append,
      weightedSum_append, weightedSum_append, h100d]
    have p1 := weightedSum_nonneg (scorePermissions_nonneg cfg rules sp hw1)
    have p2 := weightedSum_nonneg (scoreTrustFactors_nonneg cfg sp hfp hw2 hw3)
    have p3 := weightedSum_nonneg (scoreOwnership_nonneg cfg rules sp hw4)
    have p4 := weightedSum_nonneg (scoreActivity_nonneg cfg rules sp hw5)
    have p5 : 0 ≤ weightedSum
        (if sp.linked_application.isSome then scoreCredentials cfg sp
         else []) := by
      split
      · exact weightedSum_nonneg (scoreCredentials_nonneg cfg sp)
      · norm_num [weightedSum]
    linarith
  have htot : calculateTotal (accumulateFactors cfg rules sp) = 100 :=
    calculateTotal_eq_100_of_ge hsum
  refine ⟨?_, hsum, htot, ?_⟩
  · show _ ∈ accumulateFactors cfg rules sp
    unfold accumulateFactors
    rw [hdf]
    simp
  · show riskLevelOf (calculateTotal (accumulateFactors cfg rules sp)) = _
    rw [htot]
    norm_num [riskLevelOf]

/-- Witness for C5: a concrete deny-listed third-party service principal
under the default weights. -/
theorem c5_witness :
    ({ name := "Deny List"
       description := "App is on the deny list"
       score := 100
       weight := 1
       details := some ("App ID: " ++ "bad-app") } : RiskFactor) ∈
      (scoreServicePrincipal
        (Config.mk defaultThresholds defaultScoringWeights
          ⟨[], ["bad-app"], []⟩) []
        { object_id := "w5", app_id := "bad-app",
          display_name := "W5" }).factors ∧
    100 ≤ weightedSum (scoreServicePrincipal
        (Config.mk defaultThresholds defaultScoringWeights
          ⟨[], ["bad-app"], []⟩) []
        { object_id := "w5", app_id := "bad-app",
          display_name := "W5" }).factors ∧
    (scoreServicePrincipal
        (Config.mk defaultThresholds defaultScoringWeights
          ⟨[], ["bad-app"], []⟩) []
        { object_id := "w5", app_id := "bad-app",
          display_name := "W5" }).total_score = 100 ∧
    (scoreServicePrincipal
        (Config.mk defaultThresholds defaultScoringWeights
          ⟨[], ["bad-app"], []⟩) []
        { object_id := "w5", app_id := "bad-app",
          display_name := "W5" }).risk_level = "Critical" :=
  c5_deny_list_reaches_ceiling
    (Config.mk defaultThresholds defaultScoringWeights ⟨[], ["bad-app"], []⟩)
    []
    { object_id := "w5", app_id := "bad-app", display_name := "W5" }
    (by decide) (by decide) (by decide)
    (by norm_num [defaultScoringWeights])
    (by norm_num [defaultScoringWeights])
    (by norm_num [defaultScoringWeights])
    (by norm_num [defaultScoringWeights])
    (by norm_num [defaultScoringWeights])

/-- **C6, counterexample.** As stated the claim is false: claim C6 gates
the inactivity factor on the maximum impact across all held permissions
(delegated scopes and application roles), but `_score_activity` computes
its maximum over delegated scopes only.  A service principal whose sole
high-impact permission (impact 90 ≥ 70) is held as an application role,
with available telemetry and 100 > 90 days of inactivity, gets no activity
factor even though every hypothesis of the claim holds. -/
theorem c6_counterexample :
    maxImpactAllPermissions [("bigrole", { impact_score := some 90 })]
      { object_id := "sp6", app_id := "a6", display_name := "S6",
        app_type := .tenantOwned,
        owners := [{ object_id := "o1" }],
        app_role_assignments := [{ role_value := some "BigRole" }],
        sign_in_activity :=
          some { days_since_last_activity := some 100 } } = 90 ∧
    (100 : Int) > defaultConfig.thresholds.inactive_days_threshold ∧
    scoreActivity defaultConfig [("bigrole", { impact_score := some 90 })]
      { object_id := "sp6", app_id := "a6", display_name := "S6",
        app_type := .tenantOwned,
        owners := [{ object_id := "o1" }],
        app_role_assignments := [{ role_value := some "BigRole" }],
        sign_in_activity :=
          some { days_since_last_activity := some 100 } } = [] := by
  refine ⟨by decide, by decide, by decide⟩

/-- **C6, amended.** When sign-in telemetry is available for an identity
and its days of inactivity exceed the configured threshold and the maximum
impact score across its *delegated scopes* (only — application roles are
not consulted) is at least 70, `_score_activity` emits exactly one
activity factor with score 25 whose detail text names the threshold; when
telemetry is unavailable, no activity factor is emitted. -/
theorem c6_amended_inactivity_factor (cfg : Config) (rules : Rules) :
    (∀ sp act d, sp.sign_in_activity = some act →
      act.data_available = true →
      act.days_since_last_activity = some d →
      d > cfg.thresholds.inactive_days_threshold →
      70 ≤ maxImpactDelegated rules sp →
      scoreActivity cfg rules sp =
        [{ name := "Inactive High-Privilege"
           description := "App unused for " ++ toString d ++
             " days with high-impact permissions"
           score := 25
           weight := cfg.scoring.unused_high_privilege_weight
           details := some ("Threshold: " ++
             toString cfg.thresholds.inactive_days_threshold ++
             " days") }]) ∧
    (∀ sp, (sp.sign_in_activity = none ∨
        ∀ act, sp.sign_in_activity = some act →
          act.data_available = false) →
      scoreActivity cfg rules sp = []) := by
  constructor
  · intro sp act d hact hav hdays hgt himp
    unfold scoreActivity
    rw [hact]
    dsimp only
    rw [if_neg (by rw [hav]; simp)]
    rw [hdays]
    dsimp only
    rw [if_pos hgt, if_pos (by exact himp)]
  · intro sp hun
    unfold scoreActivity
    rcases hun with hnone | hfalse
    · rw [hnone]
    · cases hact : sp.sign_in_activity with
      | none => rfl
      | some act =>
          dsimp only
          rw [if_pos (by rw [hfalse act hact]; simp)]

/-- Witness for the amended C6: a delegated-scope-held impact-90 permission
with 100 > 90 days of inactivity produces the single factor, and an
identity without telemetry produces none. -/
theorem c6_witness :
    scoreActivity defaultConfig [("bigscope", { impact_score := some 90 })]
      { object_id := "w6", app_id := "w6a", display_name := "W6",
        oauth2_permission_grants :=
          [{ consent_type := .admin, scope := "BigScope" }],
        sign_in_activity :=
          some { days_since_last_activity := some 100 } } =
      [{ name := "Inactive High-Privilege"
         description := "App unused for " ++ toString (100 : Int) ++
           " days with high-impact permissions"
         score := 25
         weight := defaultConfig.scoring.unused_high_privilege_weight
         details := some ("Threshold: " ++
           toString defaultConfig.thresholds.inactive_days_threshold ++
           " days") }] ∧
    scoreActivity defaultConfig [("bigscope", { impact_score := some 90 })]
      { object_id := "w6b", app_id := "w6b", display_name := "W6b",
        oauth2_permission_grants :=
          [{ consent_type := .admin, scope := "BigScope" }] } = [] :=
  ⟨(c6_amended_inactivity_factor defaultConfig
      [("bigscope", { impact_score := some 90 })]).1
    { object_id := "w6", app_id := "w6a", display_name := "W6",
      oauth2_permission_grants :=
        [{ consent_type := .admin, scope := "BigScope" }],
      sign_in_activity := some { days_since_last_activity := some 100 } }
    { days_since_last_activity := some 100 } 100
    rfl rfl rfl (by decide) (by decide),
   (c6_amended_inactivity_factor defaultConfig
      [("bigscope", { impact_score := some 90 })]).2
    { object_id := "w6b", app_id := "w6b", display_name := "W6b",
      oauth2_permission_grants :=
        [{ consent_type := .admin, scope := "BigScope" }] }
    (Or.inl rfl)⟩

/-- **C8, counterexample.** As stated the claim is false: the filter in
`get_high_impact_permissions` defaults a missing `impact_score` to 0, not
to the catalog's documented default of 30.  On a catalog with one rule
that omits `impact_score` and `minScore = 10`, the code returns the empty
list while the claim requires the rule (effective impact 30 ≥ 10) to be
returned. -/
theorem c8_counterexample :
    getHighImpactPermissions
      [("alpha", { category := some "read_only" })] 10 = [] ∧
    claimedHighImpact [("alpha", { category := some "read_only" })] 10 ≠
      [] := by
  constructor
  · norm_num [getHighImpactPermissions, List.filterMap_cons,
      Option.getD_none]
  · norm_num [claimedHighImpact, List.filterMap_cons, Option.getD_none]

/-- **C8, amended.** For every `minScore`, `get_high_impact_permissions`
returns exactly the catalog rules whose impact score — defaulting to 0
(not 30) when the rule omits the impact-score field — is at least
`minScore`, each under its resolved name with its translation, sorted in
descending order of (translated) impact score. -/
theorem c8_amended_high_impact_listing (rules : Rules) (min_score : Int) :
    (getHighImpactPermissions rules min_score).Perm
      ((rules.filter
          (fun kr => kr.2.impact_score.getD 0 ≥ min_score)).map
        (fun kr => (resolvePermName rules kr.1 kr.2,
          translate rules (resolvePermName rules kr.1 kr.2)))) ∧
    (getHighImpactPermissions rules min_score).Pairwise
      (fun a b => b.2.impact_score ≤ a.2.impact_score) := by
  constructor
  · have h := List.mergeSort_perm (rules.filterMap (fun kr =>
        if kr.2.impact_score.getD 0 ≥ min_score then
          some (resolvePermName rules kr.1 kr.2,
            translate rules (resolvePermName rules kr.1 kr.2))
        else none))
      (fun a b => b.2.impact_score ≤ a.2.impact_score)
    unfold getHighImpactPermissions
    refine h.trans ?_
    have heq : ∀ l : Rules, (l.filterMap (fun kr =>
        if kr.2.impact_score.getD 0 ≥ min_score then
          some (resolvePermName rules kr.1 kr.2,
            translate rules (resolvePermName rules kr.1 kr.2))
        else none)) =
        (l.filter (fun kr => kr.2.impact_score.getD 0 ≥ min_score)).map
          (fun kr => (resolvePermName rules kr.1 kr.2,
            translate rules (resolvePermName rules kr.1 kr.2))) := by
      intro l
      induction l with
      | nil => rfl
      | cons a l ih =>
          by_cases hc : a.2.impact_score.getD 0 ≥ min_score <;>
            simp [hc, ih]
    rw [heq rules]
  · have htrans : ∀ a b c : String × TranslatedPermission,
        (fun a b : String × TranslatedPermission =>
          decide (b.2.impact_score ≤ a.2.impact_score)) a b = true →
        (fun a b : String × TranslatedPermission =>
          decide (b.2.impact_score ≤ a.2.impact_score)) b c = true →
        (fun a b : String × TranslatedPermission =>
          decide (b.2.impact_score ≤ a.2.impact_score)) a c = true := by
      intro a b c hab hbc
      simp only [decide_eq_true_eq] at *
      exact le_trans hbc hab
    have htotal : ∀ a b : String × TranslatedPermission,
        ((fun a b : String × TranslatedPermission =>
          decide (b.2.impact_score ≤ a.2.impact_score)) a b ||
         (fun a b : String × TranslatedPermission =>
          decide (b.2.impact_score ≤ a.2.impact_score)) b a) = true := by
      intro a b
      simp only [Bool.or_eq_true, decide_eq_true_eq]
      exact le_total _ _
    have h := List.sorted_mergeSort htrans htotal
      (rules.filterMap (fun kr =>
        if kr.2.impact_score.getD 0 ≥ min_score then
          some (resolvePermName rules kr.1 kr.2,
            translate rules (resolvePermName rules kr.1 kr.2))
        else none))
    unfold getHighImpactPermissions
    simpa using h

/-- **C4, counterexample.** As stated the claim is false: the first-party
trust factor contributes only −30·0.3 = −9, it does not suppress
permission factors.  A FirstPartyTrusted identity holding a single
delegated scope that is unknown to the catalog (impact 30) scores
30 − 9 = 21, which is not strictly less than 20 (with a higher-impact
permission the level also rises above Low). -/
theorem c4_counterexample :
    c4FirstPartySP.app_type = AppType.firstPartyMicrosoft ∧
    c4FirstPartySP.app_id ∉ defaultConfig.allow_deny.allowed_app_ids ∧
    c4FirstPartySP.all_delegated_scopes ≠ [] ∧
    (scoreServicePrincipal defaultConfig [] c4FirstPartySP).total_score =
      21 ∧
    ¬ ((scoreServicePrincipal defaultConfig []
        c4FirstPartySP).total_score < 20) := by
  have htot : (scoreServicePrincipal defaultConfig []
      c4FirstPartySP).total_score = 21 := by
    have hsc : c4FirstPartySP.all_delegated_scopes = ["custom.scope"] := by
      decide
    have hrv : c4FirstPartySP.all_app_role_values = [] := by decide
    have hat : c4FirstPartySP.app_type = AppType.firstPartyMicrosoft := rfl
    have how : c4FirstPartySP.has_owners = true := by decide
    have hsa : c4FirstPartySP.sign_in_activity = none := rfl
    have hla : c4FirstPartySP.linked_application = none := rfl
    have hac : c4FirstPartySP.oauth2_permission_grants.any
        (fun grant => grant.consent_type == ConsentType.user) = false := by
      decide
    have h30 : pyInt (30 : ℚ) = 30 := by norm_num [pyInt]
    have h21 : pyInt (21 : ℚ) = 21 := by norm_num [pyInt]
    norm_num [scoreServicePrincipal, accumulateFactors, denyFactors,
      scorePermissions, delegatedFactor, applicationFactor, consentFactors,
      scoreTrustFactors, scoreOwnership, scoreActivity,
      calculateTotal, weightedSum, translate, Rules.get, defaultConfig,
      defaultScoringWeights, hsc, hrv, hat, how, hsa, hla, hac, h30, h21,
      List.filterMap_cons, List.filterMap_nil]
    exact List.cons_ne_nil _ _
  refine ⟨rfl, by decide, by decide, htot, ?_⟩
  rw [htot]
  norm_num

/-- **C4, amended.** For every FirstPartyTrusted identity — whatever
permissions it holds — `detect` skips it entirely, so it produces zero
shadow findings; the risk score, however, still accumulates permission
factors (see the counterexample, where one unknown delegated scope
already yields 21), so `total_score < 20` with level Low is only
guaranteed when, under the default weights, the identity is additionally
not deny-listed and holds no permissions, no linked registration, and at
least one owner. -/
theorem c4_amended_first_party_low (cfg : Config) (rules : Rules)
    (sp : ServicePrincipal) (b : Bool) (result : AnalysisResult)
    (hfp : sp.app_type = AppType.firstPartyMicrosoft) :
    detectForSP cfg result sp = [] ∧
    detect cfg ⟨[sp], b⟩ = [] ∧
    (cfg.scoring = defaultScoringWeights →
     sp.app_id ∉ cfg.allow_deny.allowed_app_ids →
     sp.app_id ∉ cfg.allow_deny.denied_app_ids →
     sp.all_delegated_scopes = [] →
     sp.all_app_role_values = [] →
     sp.linked_application = none →
     sp.has_owners = true →
     (scoreServicePrincipal cfg rules sp).total_score < 20 ∧
     (scoreServicePrincipal cfg rules sp).risk_level = "Low") := by
  have hdet : ∀ r : AnalysisResult, detectForSP cfg r sp = [] := by
    intro r
    unfold detectForSP
    rw [if_pos hfp]
  have hdetect : detect cfg ⟨[sp], b⟩ = [] := by
    unfold detect
    rw [List.map_cons, List.map_nil, hdet ⟨[sp], b⟩]
    simp
  refine ⟨hdet result, hdetect, ?_⟩
  intro hw hnal hnde hsc hrv hla how
  have hact : scoreActivity cfg rules sp = [] := by
    unfold scoreActivity
    cases hsa : sp.sign_in_activity with
    | none => rfl
    | some act =>
        dsimp only
        split
        · rfl
        · cases hd : act.days_since_last_activity with
          | none => simp [hsc, hrv]
          | some d =>
              dsimp only
              split
              · rw [if_neg]
                unfold maxImpactDelegated
                rw [hsc]
                norm_num
              · rfl
  have hden : denyFactors cfg sp = [] := by
    unfold denyFactors
    rw [if_neg hnde]
  have hown : scoreOwnership cfg rules sp = [] := by
    unfold scoreOwnership
    rw [how]
    simp
  have hcred : (if sp.linked_application.isSome then
      scoreCredentials cfg sp else []) = [] := by
    rw [hla]
    rfl
  have htr : scoreTrustFactors cfg sp =
      [{ name := "Microsoft First-Party"
         description := "This is a Microsoft first-party application"
         score := -30
         weight := (3/10 : ℚ) }] := by
    unfold scoreTrustFactors
    rw [if_pos hfp, hw]
    rfl
  have h15 : pyInt (15 : ℚ) = 15 := by norm_num [pyInt]
  have hm9 : pyInt (-9 : ℚ) = -9 := by
    have hc : ((-9 : ℤ) : ℚ) = (-9 : ℚ) := by norm_num
    rw [← hc, pyInt_intCast]
  have hscore : (scoreServicePrincipal cfg rules sp).total_score < 20 ∧
      (scoreServicePrincipal cfg rules sp).risk_level = "Low" := by
    rw [scoreServicePrincipal_not_allowed cfg rules sp hnal]
    cases hb : sp.oauth2_permission_grants.any
        (fun grant => grant.consent_type == ConsentType.user) with
    | false =>
        have hperm : scorePermissions cfg rules sp = [] := by
          unfold scorePermissions consentFactors
          rw [hsc, hrv, hb]
          simp
        have hfacts : accumulateFactors cfg rules sp =
            [{ name := "Microsoft First-Party"
               description := "This is a Microsoft first-party application"
               score := -30
               weight := (3/10 : ℚ) }] := by
          unfold accumulateFactors
          rw [hden, hperm, htr, hown, hact, hcred]
          simp
        rw [hfacts]
        constructor
        · norm_num [calculateTotal, weightedSum, hm9, List.cons_ne_nil]
        · norm_num [calculateTotal, weightedSum, riskLevelOf, hm9,
            List.cons_ne_nil]
    | true =>
        have hperm : scorePermissions cfg rules sp =
            [{ name := "User Consent Present"
               description :=
                 "Some permissions were granted via user consent (not admin)"
               score := 20
               weight := (6/5 : ℚ)
               details := some ("Users who consented: " ++
                 toString sp.consent_user_count) }] := by
          unfold scorePermissions consentFactors
          rw [hsc, hrv, hb, hw]
          simp [defaultScoringWeights]
        have hfacts : accumulateFactors cfg rules sp =
            [{ name := "User Consent Present"
               description :=
                 "Some permissions were granted via user consent (not admin)"
               score := 20
               weight := (6/5 : ℚ)
               details := some ("Users who consented: " ++
                 toString sp.consent_user_count) },
             { name := "Microsoft First-Party"
               description := "This is a Microsoft first-party application"
               score := -30
               weight := (3/10 : ℚ) }] := by
          unfold accumulateFactors
          rw [hden, hperm, htr, hown, hact, hcred]
          simp
        rw [hfacts]
        constructor
        · norm_num [calculateTotal, weightedSum, h15, List.cons_ne_nil]
        · norm_num [calculateTotal, weightedSum, riskLevelOf, h15,
            List.cons_ne_nil]
  exact hscore

/-- Witness for the amended C4: a first-party identity holding a
high-impact delegated scope still yields zero shadow findings, and a
permissionless owned first-party identity scores below 20 at level
Low. -/
theorem c4_witness :
    detectForSP defaultConfig ⟨[], false⟩
      { object_id := "w4p", app_id := "w4p-app", display_name := "W4P",
        app_type := .firstPartyMicrosoft,
        oauth2_permission_grants :=
          [{ consent_type := .user,
             scope := "Directory.ReadWrite.All" }] } = [] ∧
    detect defaultConfig
      ⟨[{ object_id := "w4p", app_id := "w4p-app", display_name := "W4P",
          app_type := .firstPartyMicrosoft,
          oauth2_permission_grants :=
            [{ consent_type := .user,
               scope := "Directory.ReadWrite.All" }] }], false⟩ = [] ∧
    ((scoreServicePrincipal defaultConfig []
      { object_id := "w4", app_id := "w4-app", display_name := "W4",
        app_type := .firstPartyMicrosoft,
        owners := [{ object_id := "o1" }] }).total_score < 20 ∧
     (scoreServicePrincipal defaultConfig []
      { object_id := "w4", app_id := "w4-app", display_name := "W4",
        app_type := .firstPartyMicrosoft,
        owners := [{ object_id := "o1" }] }).risk_level = "Low") :=
  have hperm := c4_amended_first_party_low defaultConfig []
    { object_id := "w4p", app_id := "w4p-app", display_name := "W4P",
      app_type := .firstPartyMicrosoft,
      oauth2_permission_grants :=
        [{ consent_type := .user, scope := "Directory.ReadWrite.All" }] }
    false ⟨[], false⟩ rfl
  have hbare := c4_amended_first_party_low defaultConfig []
    { object_id := "w4", app_id := "w4-app", display_name := "W4",
      app_type := .firstPartyMicrosoft,
      owners := [{ object_id := "o1" }] }
    false ⟨[], false⟩ rfl
  ⟨hperm.1, hperm.2.1,
   hbare.2.2 rfl (by decide) (by decide) (by decide) (by decide) rfl
     (by decide)⟩

/-! ### Helper lemmas for C7 -/

/-- Appending a fresh element commutes with `dedup` (which keeps the last
occurrence of each element). -/
theorem dedup_append_singleton {α : Type*} [DecidableEq α]
    {l : List α} {v : α} (h : v ∉ l) :
    (l ++ [v]).dedup = l.dedup ++ [v] := by
  induction l with
  | nil => rfl
  | cons a l ih =>
      have hav : a ≠ v := by
        intro hev
        exact h (List.mem_cons.mpr (Or.inl hev.symm))
      have hvl : v ∉ l := fun hm => h (List.mem_cons_of_mem a hm)
      by_cases hal : a ∈ l
      · rw [List.cons_append, List.dedup_cons_of_mem
          (List.mem_append_left _ hal), List.dedup_cons_of_mem hal, ih hvl]
      · have h1 : a ∉ l ++ [v] := by
          intro hm
          rcases List.mem_append.mp hm with hm | hm
          · exact hal hm
          · exact hav (List.mem_singleton.mp hm)
        rw [List.cons_append, List.dedup_cons_of_not_mem h1,
          List.dedup_cons_of_not_mem hal, ih hvl, List.cons_append]

/-- `pyInt` is nonpositive on nonpositive rationals. -/
theorem pyInt_nonpos {q : ℚ} (h : q ≤ 0) : pyInt q ≤ 0 := by
  unfold pyInt
  split
  · calc ⌈q⌉ ≤ ⌈(0 : ℚ)⌉ := Int.ceil_le_ceil h
      _ = 0 := by norm_num
  · calc ⌊q⌋ ≤ ⌊(0 : ℚ)⌋ := Int.floor_le_floor h
      _ = 0 := by norm_num

/-- `pyInt` is monotone. -/
theorem pyInt_mono {q r : ℚ} (h : q ≤ r) : pyInt q ≤ pyInt r := by
  unfold pyInt
  by_cases hq : q < 0
  · by_cases hr : r < 0
    · rw [if_pos hq, if_pos hr]
      exact Int.ceil_le_ceil h
    · rw [if_pos hq, if_neg hr]
      push_neg at hr
      calc ⌈q⌉ ≤ ⌈(0 : ℚ)⌉ := Int.ceil_le_ceil (le_of_lt hq)
        _ = 0 := by norm_num
        _ ≤ ⌊r⌋ := Int.le_floor.mpr (by exact_mod_cast hr)
  · rw [if_neg hq]
    have hr : ¬ (r < 0) := by
      push_neg at hq ⊢
      linarith
    rw [if_neg hr]
    exact Int.floor_le_floor h

/-- `_calculate_total` is monotone in the weighted factor sum. -/
theorem calculateTotal_mono {fs gs : List RiskFactor}
    (h : weightedSum fs ≤ weightedSum gs) :
    calculateTotal fs ≤ calculateTotal gs := by
  have hrw : ∀ hs : List RiskFactor, calculateTotal hs =
      max 0 (min 100 (pyInt
        (if (if weightedSum hs > 100 then
            100 + (weightedSum hs - 100) * (1/10) else weightedSum hs) > 120
         then 120
         else (if weightedSum hs > 100 then
            100 + (weightedSum hs - 100) * (1/10) else weightedSum hs)))) := by
    intro hs
    by_cases hne : hs = []
    · rw [hne]
      have h0 : weightedSum ([] : List RiskFactor) = 0 := by
        norm_num [weightedSum]
      rw [calculateTotal, if_pos rfl, h0]
      norm_num [pyInt]
    · simp only [calculateTotal]
      rw [if_neg hne]
      rfl
  rw [hrw fs, hrw gs]
  set s := weightedSum fs with hs
  set t := weightedSum gs with ht
  have hcap : (if (if s > 100 then 100 + (s - 100) * (1/10) else s) > 120
      then (120 : ℚ)
      else (if s > 100 then 100 + (s - 100) * (1/10) else s)) ≤
      (if (if t > 100 then 100 + (t - 100) * (1/10) else t) > 120
      then 120
      else (if t > 100 then 100 + (t - 100) * (1/10) else t)) := by
    have hinner : (if s > 100 then 100 + (s - 100) * (1/10) else s) ≤
        (if t > 100 then 100 + (t - 100) * (1/10) else t) := by
      split <;> split <;> rename_i h1 h2 <;> push_neg at * <;> linarith
    set u : ℚ := if s > 100 then 100 + (s - 100) * (1/10) else s with hu
    set w : ℚ := if t > 100 then 100 + (t - 100) * (1/10) else t with hw2
    split <;> split <;> rename_i h1 h2 <;> push_neg at * <;> linarith
  have hp := pyInt_mono hcap
  exact max_le_max (le_refl 0) (min_le_min (le_refl 100) hp)

/-- Delegated-scope set of the C7 delegated variant: the base scopes plus
the fresh value. -/
theorem all_delegated_scopes_addDelegatedGrant (sp : ServicePrincipal)
    (v : String) (hsplit : pySplit v = [v])
    (hndel : v ∉ sp.all_delegated_scopes) :
    (addDelegatedGrant sp v).all_delegated_scopes =
      sp.all_delegated_scopes ++ [v] := by
  unfold addDelegatedGrant ServicePrincipal.all_delegated_scopes at *
  dsimp only
  rw [List.map_append, List.map_cons, List.map_nil]
  have hsc : OAuth2PermissionGrant.scopes
      { consent_type := ConsentType.admin, resource_id := "", scope := v } =
      [v] := hsplit
  rw [hsc, List.flatten_append]
  have hfl : List.flatten [[v]] = [v] := by simp
  rw [hfl]
  exact dedup_append_singleton (fun hm => hndel (List.mem_dedup.mpr hm))

/-- App-role value set of the C7 application variant: the base values plus
the fresh value. -/
theorem all_app_role_values_addAppRoleAssignment (sp : ServicePrincipal)
    (v : String) (hv1 : v ≠ "")
    (hnrole : v ∉ sp.all_app_role_values) :
    (addAppRoleAssignment sp v).all_app_role_values =
      sp.all_app_role_values ++ [v] := by
  unfold addAppRoleAssignment ServicePrincipal.all_app_role_values at *
  dsimp only
  rw [List.filterMap_append]
  have hfm : List.filterMap AppRoleAssignment.role_value
      [{ resource_id := "", resource_display_name := none,
         role_value := some v }] = [v] := rfl
  rw [hfm, List.filter_append]
  have hfv : List.filter (fun w => w ≠ "") [v] = [v] := by
    simp [hv1]
  rw [hfv]
  exact dedup_append_singleton (fun hm => hnrole (List.mem_dedup.mpr hm))

/-- Folding the impact maximum over an appended fresh value. -/
theorem foldl_impact_append (rules : Rules) (l : List String) (acc : Int)
    (v : String) :
    (l ++ [v]).foldl
      (fun max_impact scope =>
        max max_impact (translate rules scope).impact_score) acc =
      max (l.foldl (fun max_impact scope =>
        max max_impact (translate rules scope).impact_score) acc)
        (translate rules v).impact_score := by
  rw [List.foldl_append]
  rfl

/-- A `max` in the accumulator commutes out of the impact fold. -/
theorem foldl_impact_out (rules : Rules) (l : List String) :
    ∀ acc x : Int, l.foldl
      (fun max_impact scope =>
        max max_impact (translate rules scope).impact_score) (max acc x) =
      max (l.foldl (fun max_impact scope =>
        max max_impact (translate rules scope).impact_score) acc) x := by
  induction l with
  | nil => intro acc x; rfl
  | cons s l ih =>
      intro acc x
      rw [List.foldl_cons, List.foldl_cons]
      have hmr : max (max acc x) (translate rules s).impact_score =
          max (max acc (translate rules s).impact_score) x :=
        Max.right_comm acc x (translate rules s).impact_score
      rw [hmr, ih]

/-- The ownership max-impact scan agrees on the two C7 variants. -/
theorem maxImpactOwnership_variants_eq (rules : Rules)
    (sp : ServicePrincipal) (v : String) (hsplit : pySplit v = [v])
    (hv1 : v ≠ "") (hv2 : v ≠ "Default Access")
    (hndel : v ∉ sp.all_delegated_scopes)
    (hnrole : v ∉ sp.all_app_role_values) :
    maxImpactOwnership rules (addDelegatedGrant sp v) =
      maxImpactOwnership rules (addAppRoleAssignment sp v) := by
  unfold maxImpactOwnership
  have e1 := all_delegated_scopes_addDelegatedGrant sp v hsplit hndel
  have e2 : (addDelegatedGrant sp v).all_app_role_values =
      sp.all_app_role_values := rfl
  have e3 : (addAppRoleAssignment sp v).all_delegated_scopes =
      sp.all_delegated_scopes := rfl
  have e4 := all_app_role_values_addAppRoleAssignment sp v hv1 hnrole
  rw [e1, e2, e3, e4, foldl_impact_append, List.filter_append]
  have e5 : List.filter
      (fun role => ¬ (role = "" ∨ role = "Default Access"))
      [v] = [v] := by
    simp [hv1, hv2]
  rw [e5, foldl_impact_append, foldl_impact_out]

/-- `_score_ownership` agrees on the two C7 variants. -/
theorem scoreOwnership_variants_eq (cfg : Config) (rules : Rules)
    (sp : ServicePrincipal) (v : String) (hsplit : pySplit v = [v])
    (hv1 : v ≠ "") (hv2 : v ≠ "Default Access")
    (hndel : v ∉ sp.all_delegated_scopes)
    (hnrole : v ∉ sp.all_app_role_values) :
    scoreOwnership cfg rules (addDelegatedGrant sp v) =
      scoreOwnership cfg rules (addAppRoleAssignment sp v) := by
  unfold scoreOwnership
  have hho : (addDelegatedGrant sp v).has_owners = sp.has_owners := rfl
  have hho2 : (addAppRoleAssignment sp v).has_owners = sp.has_owners := rfl
  rw [hho, hho2,
    maxImpactOwnership_variants_eq rules sp v hsplit hv1 hv2 hndel hnrole]

/-- The activity max-impact scan on the C7 delegated variant picks up the
new value. -/
theorem maxImpactDelegated_addDelegatedGrant (rules : Rules)
    (sp : ServicePrincipal) (v : String) (hsplit : pySplit v = [v])
    (hndel : v ∉ sp.all_delegated_scopes) :
    maxImpactDelegated rules (addDelegatedGrant sp v) =
      max (maxImpactDelegated rules sp)
        (translate rules v).impact_score := by
  unfold maxImpactDelegated
  rw [all_delegated_scopes_addDelegatedGrant sp v hsplit hndel,
    foldl_impact_append]

/-- `_score_activity` on the two C7 variants: either both emit the same
factors, or the delegated variant alone emits the 25-point inactivity
factor — which requires the added value's impact to be at least 70. -/
theorem scoreActivity_variants (cfg : Config) (rules : Rules)
    (sp : ServicePrincipal) (v : String) (hsplit : pySplit v = [v])
    (hv1 : v ≠ "") (hv2 : v ≠ "Default Access")
    (hndel : v ∉ sp.all_delegated_scopes)
    (hnrole : v ∉ sp.all_app_role_values) :
    scoreActivity cfg rules (addDelegatedGrant sp v) =
      scoreActivity cfg rules (addAppRoleAssignment sp v) ∨
    (weightedSum (scoreActivity cfg rules (addDelegatedGrant sp v)) =
        25 * cfg.scoring.unused_high_privilege_weight ∧
      scoreActivity cfg rules (addAppRoleAssignment sp v) = [] ∧
      70 ≤ (translate rules v).impact_score) := by
  have hsaD : (addDelegatedGrant sp v).sign_in_activity =
      sp.sign_in_activity := rfl
  have hsaA : (addAppRoleAssignment sp v).sign_in_activity =
      sp.sign_in_activity := rfl
  have e1 := all_delegated_scopes_addDelegatedGrant sp v hsplit hndel
  have e4 := all_app_role_values_addAppRoleAssignment sp v hv1 hnrole
  have hmD := maxImpactDelegated_addDelegatedGrant rules sp v hsplit hndel
  have hmA : maxImpactDelegated rules (addAppRoleAssignment sp v) =
      maxImpactDelegated rules sp := rfl
  unfold scoreActivity
  rw [hsaD, hsaA]
  cases hsa : sp.sign_in_activity with
  | none => exact Or.inl rfl
  | some act =>
      dsimp only
      by_cases hav : act.data_available
      · have hnav : ¬ (¬ act.data_available = true) := by simp [hav]
        rw [if_neg hnav, if_neg hnav]
        cases hd : act.days_since_last_activity with
        | none =>
            dsimp only
            have hgD : (addDelegatedGrant sp v).all_delegated_scopes ≠ []
                ∨ (addDelegatedGrant sp v).all_app_role_values ≠ [] := by
              left
              rw [e1]
              simp
            have hgA : (addAppRoleAssignment sp v).all_delegated_scopes ≠
                [] ∨ (addAppRoleAssignment sp v).all_app_role_values ≠
                [] := by
              right
              rw [e4]
              simp
            rw [if_pos hgD, if_pos hgA]
            exact Or.inl rfl
        | some d =>
            dsimp only
            by_cases hdt : d > cfg.thresholds.inactive_days_threshold
            · rw [if_pos hdt, if_pos hdt]
              by_cases h1 : 70 ≤ maxImpactDelegated rules sp
              · have hcA : maxImpactDelegated rules
                    (addAppRoleAssignment sp v) ≥ 70 := by
                  rw [hmA]
                  exact h1
                have hcD : maxImpactDelegated rules
                    (addDelegatedGrant sp v) ≥ 70 := by
                  rw [hmD]
                  exact le_max_of_le_left h1
                rw [if_pos hcD, if_pos hcA]
                exact Or.inl rfl
              · by_cases h2 : 70 ≤ (translate rules v).impact_score
                · have hcD : maxImpactDelegated rules
                      (addDelegatedGrant sp v) ≥ 70 := by
                    rw [hmD]
                    exact le_max_of_le_right h2
                  have hcA : ¬ (maxImpactDelegated rules
                      (addAppRoleAssignment sp v) ≥ 70) := by
                    rw [hmA]
                    exact h1
                  rw [if_pos hcD, if_neg hcA]
                  refine Or.inr ⟨?_, rfl, h2⟩
                  rw [weightedSum_singleton]
                  norm_num
                · have hcA : ¬ (maxImpactDelegated rules
                      (addAppRoleAssignment sp v) ≥ 70) := by
                    rw [hmA]
                    exact h1
                  have hcD : ¬ (maxImpactDelegated rules
                      (addDelegatedGrant sp v) ≥ 70) := by
                    rw [hmD]
                    exact not_le.mpr (max_lt (not_le.mp h1)
                      (not_le.mp h2))
                  rw [if_neg hcD, if_neg hcA]
                  exact Or.inl rfl
            · rw [if_neg hdt, if_neg hdt]
              exact Or.inl rfl
      · have hpav : (¬ act.data_available = true) := by
          simp [Bool.not_eq_true] at hav
          simp [hav]
        rw [if_pos hpav, if_pos hpav]
        exact Or.inl rfl

/-- `weightedSum` of the empty factor list. -/
theorem weightedSum_nil : weightedSum [] = 0 := by
  norm_num [weightedSum]

/-- Weighted contribution of the single added delegated scope under the
default multipliers. -/
theorem weightedSum_delegatedFactor_default (cfg : Config) (rules : Rules)
    (v : String) (hw : cfg.scoring = defaultScoringWeights) :
    weightedSum (List.filterMap (delegatedFactor cfg rules) [v]) =
      if 0 < (translate rules v).impact_score
      then ((translate rules v).impact_score : ℚ) else 0 := by
  have hdf : delegatedFactor cfg rules v =
      if 0 < (translate rules v).impact_score then
        some { name := "Delegated: " ++ v
               description := (translate rules v).plain_english
               score := (translate rules v).impact_score
               weight := 1
               details := some ("Category: " ++
                 (translate rules v).category_label) }
      else none := by
    unfold delegatedFactor
    rw [hw]
    dsimp only
    have hmul : (((translate rules v).impact_score : ℚ)) *
        defaultScoringWeights.delegated_permission_multiplier =
        (((translate rules v).impact_score : ℚ)) := by
      norm_num [defaultScoringWeights]
    rw [hmul, pyInt_intCast]
  rw [List.filterMap_cons, hdf, List.filterMap_nil]
  by_cases hpos : 0 < (translate rules v).impact_score
  · rw [if_pos hpos, if_pos hpos]
    dsimp only
    rw [weightedSum_singleton]
    norm_num
  · rw [if_neg hpos, if_neg hpos]
    dsimp only
    exact weightedSum_nil

/-- Weighted contribution of the single added application role under the
default multipliers. -/
theorem weightedSum_applicationFactor_default (cfg : Config)
    (rules : Rules) (v : String) (hw : cfg.scoring = defaultScoringWeights)
    (hv1 : v ≠ "") (hv2 : v ≠ "Default Access") :
    weightedSum (List.filterMap (applicationFactor cfg rules) [v]) =
      if 0 < pyInt ((((translate rules v).impact_score : ℚ)) * (3/2))
      then ((pyInt ((((translate rules v).impact_score : ℚ)) * (3/2)) : ℚ))
      else 0 := by
  have haf : applicationFactor cfg rules v =
      if 0 < pyInt ((((translate rules v).impact_score : ℚ)) * (3/2)) then
        some { name := "Application: " ++ v
               description := (translate rules v).plain_english
               score :=
                 pyInt ((((translate rules v).impact_score : ℚ)) * (3/2))
               weight := 1
               details := some ("Category: " ++
                 (translate rules v).category_label) }
      else none := by
    unfold applicationFactor
    rw [if_neg (by
      intro hor
      rcases hor with hc | hc
      · exact hv1 hc
      · exact hv2 hc), hw]
    dsimp only
    rw [show defaultScoringWeights.application_permission_multiplier =
      ((3 : ℚ)/2) from rfl]
  rw [List.filterMap_cons, haf, List.filterMap_nil]
  by_cases hpos :
      0 < pyInt ((((translate rules v).impact_score : ℚ)) * (3/2))
  · rw [if_pos hpos, if_pos hpos]
    dsimp only
    rw [weightedSum_singleton]
    norm_num
  · rw [if_neg hpos, if_neg hpos]
    dsimp only
    exact weightedSum_nil

/-- **C7, amended.** For every permission value and every pair of
otherwise-identical identities where one holds the value as an application
role (not the no-specific-role sentinel) and the other holds it as an
admin-consented delegated scope, under the default weights the
application-role identity's total risk score is at least — not strictly
above — the delegated one's (equality occurs at the 100 ceiling, at impact
1 under `int` truncation, and when the inactivity factor fires only for
the delegated variant). -/
theorem c7_amended_application_at_least_delegated (cfg : Config)
    (rules : Rules) (sp : ServicePrincipal) (v : String)
    (hw : cfg.scoring = defaultScoringWeights)
    (hsplit : pySplit v = [v]) (hv1 : v ≠ "")
    (hv2 : v ≠ "Default Access")
    (hndel : v ∉ sp.all_delegated_scopes)
    (hnrole : v ∉ sp.all_app_role_values) :
    (scoreServicePrincipal cfg rules
      (addDelegatedGrant sp v)).total_score ≤
    (scoreServicePrincipal cfg rules
      (addAppRoleAssignment sp v)).total_score := by
  by_cases hall : sp.app_id ∈ cfg.allow_deny.allowed_app_ids
  · unfold scoreServicePrincipal
    rw [if_pos (show (addDelegatedGrant sp v).app_id ∈
        cfg.allow_deny.allowed_app_ids from hall),
      if_pos (show (addAppRoleAssignment sp v).app_id ∈
        cfg.allow_deny.allowed_app_ids from hall)]
  · have hallD : (addDelegatedGrant sp v).app_id ∉
        cfg.allow_deny.allowed_app_ids := hall
    have hallA : (addAppRoleAssignment sp v).app_id ∉
        cfg.allow_deny.allowed_app_ids := hall
    rw [scoreServicePrincipal_not_allowed cfg rules _ hallD,
      scoreServicePrincipal_not_allowed cfg rules _ hallA]
    dsimp only
    apply calculateTotal_mono
    unfold accumulateFactors
    rw [weightedSum_append, weightedSum_append, weightedSum_append,
      weightedSum_append, weightedSum_append, weightedSum_append,
      weightedSum_append, weightedSum_append, weightedSum_append,
      weightedSum_append]
    have hde : denyFactors cfg (addDelegatedGrant sp v) =
        denyFactors cfg (addAppRoleAssignment sp v) := rfl
    have htr : scoreTrustFactors cfg (addDelegatedGrant sp v) =
        scoreTrustFactors cfg (addAppRoleAssignment sp v) := rfl
    have hcr : (if (addDelegatedGrant sp v).linked_application.isSome then
        scoreCredentials cfg (addDelegatedGrant sp v) else []) =
        (if (addAppRoleAssignment sp v).linked_application.isSome then
        scoreCredentials cfg (addAppRoleAssignment sp v) else []) := rfl
    have how := scoreOwnership_variants_eq cfg rules sp v hsplit hv1 hv2
      hndel hnrole
    rw [hde, htr, hcr, how]
    have hPD : weightedSum (scorePermissions cfg rules
        (addDelegatedGrant sp v)) =
        weightedSum (sp.all_delegated_scopes.filterMap
          (delegatedFactor cfg rules)) +
        weightedSum (List.filterMap (delegatedFactor cfg rules) [v]) +
        weightedSum (sp.all_app_role_values.filterMap
          (applicationFactor cfg rules)) +
        weightedSum (consentFactors cfg sp) := by
      unfold scorePermissions
      have e1 := all_delegated_scopes_addDelegatedGrant sp v hsplit hndel
      have e2 : (addDelegatedGrant sp v).all_app_role_values =
          sp.all_app_role_values := rfl
      have hco : consentFactors cfg (addDelegatedGrant sp v) =
          consentFactors cfg sp := by
        unfold consentFactors addDelegatedGrant
        dsimp only
        rw [List.any_append]
        simp [ServicePrincipal.consent_user_count]
      rw [e1, e2, hco, List.filterMap_append, weightedSum_append,
        weightedSum_append, weightedSum_append]
      try ring
    have hPA : weightedSum (scorePermissions cfg rules
        (addAppRoleAssignment sp v)) =
        weightedSum (sp.all_delegated_scopes.filterMap
          (delegatedFactor cfg rules)) +
        weightedSum (List.filterMap (applicationFactor cfg rules) [v]) +
        weightedSum (sp.all_app_role_values.filterMap
          (applicationFactor cfg rules)) +
        weightedSum (consentFactors cfg sp) := by
      unfold scorePermissions
      have e4 := all_app_role_values_addAppRoleAssignment sp v hv1 hnrole
      have e3 : (addAppRoleAssignment sp v).all_delegated_scopes =
          sp.all_delegated_scopes := rfl
      have hco : consentFactors cfg (addAppRoleAssignment sp v) =
          consentFactors cfg sp := rfl
      rw [e3, e4, hco, List.filterMap_append, weightedSum_append,
        weightedSum_append, weightedSum_append]
      try ring
    rw [hPD, hPA, weightedSum_delegatedFactor_default cfg rules v hw,
      weightedSum_applicationFactor_default cfg rules v hw hv1 hv2]
    set b : Int := (translate rules v).impact_score with hbdef
    set a : Int := pyInt (((b : ℚ)) * (3/2)) with hadef
    have hba : 0 < b → (b ≤ a ∧ 0 < a) := by
      intro hbpos
      have hcq : (0 : ℚ) < ((b : ℚ)) := by exact_mod_cast hbpos
      have hle : ((b : ℚ)) ≤ ((b : ℚ)) * (3/2) := by nlinarith
      have hm := pyInt_mono hle
      rw [pyInt_intCast] at hm
      exact ⟨hm, lt_of_lt_of_le hbpos hm⟩
    have hb70 : 70 ≤ b → b + 35 ≤ a := by
      intro hb70
      have hcq : (70 : ℚ) ≤ ((b : ℚ)) := by exact_mod_cast hb70
      have hle : (((b + 35) : ℤ) : ℚ) ≤ ((b : ℚ)) * (3/2) := by
        push_cast
        nlinarith
      have hm := pyInt_mono hle
      rw [pyInt_intCast] at hm
      exact hm
    have hbn : b ≤ 0 → a ≤ 0 := by
      intro hbneg
      have hcq : ((b : ℚ)) ≤ 0 := by exact_mod_cast hbneg
      apply pyInt_nonpos
      nlinarith
    have hdel_le : (if 0 < b then ((b : ℚ)) else 0) ≤
        (if 0 < a then ((a : ℚ)) else 0) := by
      by_cases hbpos : 0 < b
      · rcases hba hbpos with ⟨h1, h2⟩
        rw [if_pos hbpos, if_pos h2]
        exact_mod_cast h1
      · rw [if_neg hbpos]
        split
        · rename_i hap
          exact_mod_cast le_of_lt hap
        · exact le_refl 0
    rcases scoreActivity_variants cfg rules sp v hsplit hv1 hv2 hndel
        hnrole with hacteq | ⟨hactd, hacta, h70⟩
    · rw [hacteq]
      linarith
    · rw [hactd, hacta, weightedSum_nil, hw]
      have hbpos : 0 < b := by linarith
      rcases hba hbpos with ⟨_, hapos⟩
      have h35 : ((b : ℚ)) + 35 ≤ ((a : ℚ)) := by
        exact_mod_cast hb70 h70
      rw [if_pos hbpos, if_pos hapos]
      have hwu : defaultScoringWeights.unused_high_privilege_weight =
          (7/5 : ℚ) := rfl
      rw [hwu]
      linarith

/-- **C7, counterexample.** As stated the claim is false: with an
impact-100 permission (such as the catalog's `Directory.ReadWrite.All`),
the delegated variant already reaches the clamp ceiling (total 100), and
the application variant's larger pre-clamp sum (150, scaled to 105) clamps
to the same 100 — not strictly higher. -/
theorem c7_counterexample :
    "Mail.X" ∉ c7Base.all_delegated_scopes ∧
    "Mail.X" ∉ c7Base.all_app_role_values ∧
    (scoreServicePrincipal defaultConfig c7Rules
      (addDelegatedGrant c7Base "Mail.X")).total_score = 100 ∧
    (scoreServicePrincipal defaultConfig c7Rules
      (addAppRoleAssignment c7Base "Mail.X")).total_score = 100 ∧
    ¬ ((scoreServicePrincipal defaultConfig c7Rules
        (addAppRoleAssignment c7Base "Mail.X")).total_score >
       (scoreServicePrincipal defaultConfig c7Rules
        (addDelegatedGrant c7Base "Mail.X")).total_score) := by
  have htr : translate c7Rules "Mail.X" =
      { permission := "Mail.X", resource := "microsoft_graph",
        plain_english := "Mail.X", category := RiskCategory.unknown,
        category_label := "Unknown", impact_score := 100,
        abuse_scenarios := [], admin_impact_note := none,
        is_known := true } := by decide
  have hD : 100 ≤ weightedSum (accumulateFactors defaultConfig c7Rules
      (addDelegatedGrant c7Base "Mail.X")) := by
    unfold accumulateFactors
    rw [weightedSum_append, weightedSum_append, weightedSum_append,
      weightedSum_append, weightedSum_append]
    rw [show denyFactors defaultConfig
        (addDelegatedGrant c7Base "Mail.X") = [] from by decide,
      show scoreTrustFactors defaultConfig
        (addDelegatedGrant c7Base "Mail.X") = [] from by decide,
      show scoreOwnership defaultConfig c7Rules
        (addDelegatedGrant c7Base "Mail.X") = [] from by decide,
      show scoreActivity defaultConfig c7Rules
        (addDelegatedGrant c7Base "Mail.X") = [] from by decide]
    unfold scorePermissions
    rw [show (addDelegatedGrant c7Base "Mail.X").all_delegated_scopes =
        ["Mail.X"] from by decide,
      show (addDelegatedGrant c7Base "Mail.X").all_app_role_values =
        [] from by decide,
      show consentFactors defaultConfig
        (addDelegatedGrant c7Base "Mail.X") = [] from by decide,
      weightedSum_append, weightedSum_append,
      weightedSum_delegatedFactor_default defaultConfig c7Rules
        "Mail.X" rfl, htr,
      show (if (addDelegatedGrant c7Base "Mail.X").linked_application.isSome
          then scoreCredentials defaultConfig
            (addDelegatedGrant c7Base "Mail.X")
          else []) = [] from rfl]
    norm_num [weightedSum_nil]
  have h150 : pyInt ((((100 : Int) : ℚ)) * (3/2)) = 150 := by
    rw [show (((100 : Int) : ℚ)) * (3/2) = (((150 : ℤ) : ℚ)) from by
      norm_num, pyInt_intCast]
  have hA : 100 ≤ weightedSum (accumulateFactors defaultConfig c7Rules
      (addAppRoleAssignment c7Base "Mail.X")) := by
    unfold accumulateFactors
    rw [weightedSum_append, weightedSum_append, weightedSum_append,
      weightedSum_append, weightedSum_append]
    rw [show denyFactors defaultConfig
        (addAppRoleAssignment c7Base "Mail.X") = [] from by decide,
      show scoreTrustFactors defaultConfig
        (addAppRoleAssignment c7Base "Mail.X") = [] from by decide,
      show scoreOwnership defaultConfig c7Rules
        (addAppRoleAssignment c7Base "Mail.X") = [] from by decide,
      show scoreActivity defaultConfig c7Rules
        (addAppRoleAssignment c7Base "Mail.X") = [] from by decide]
    unfold scorePermissions
    rw [show (addAppRoleAssignment c7Base "Mail.X").all_delegated_scopes =
        [] from by decide,
      show (addAppRoleAssignment c7Base "Mail.X").all_app_role_values =
        ["Mail.X"] from by decide,
      show consentFactors defaultConfig
        (addAppRoleAssignment c7Base "Mail.X") = [] from by decide,
      weightedSum_append, weightedSum_append,
      weightedSum_applicationFactor_default defaultConfig c7Rules
        "Mail.X" rfl (by decide) (by decide), htr]
    dsimp only
    rw [h150,
      show (if (addAppRoleAssignment c7Base
            "Mail.X").linked_application.isSome
          then scoreCredentials defaultConfig
            (addAppRoleAssignment c7Base "Mail.X")
          else []) = [] from rfl]
    norm_num [weightedSum_nil]
  have htD : (scoreServicePrincipal defaultConfig c7Rules
      (addDelegatedGrant c7Base "Mail.X")).total_score = 100 := by
    rw [scoreServicePrincipal_not_allowed defaultConfig c7Rules _
      (by decide)]
    exact calculateTotal_eq_100_of_ge hD
  have htA : (scoreServicePrincipal defaultConfig c7Rules
      (addAppRoleAssignment c7Base "Mail.X")).total_score = 100 := by
    rw [scoreServicePrincipal_not_allowed defaultConfig c7Rules _
      (by decide)]
    exact calculateTotal_eq_100_of_ge hA
  refine ⟨by decide, by decide, htD, htA, ?_⟩
  rw [htD, htA]
  norm_num

/-- Witness for the amended C7: a fresh permission value on an empty base
identity against an empty catalog. -/
theorem c7_witness :
    (scoreServicePrincipal defaultConfig []
      (addDelegatedGrant
        { object_id := "w7", app_id := "w7a", display_name := "W7" }
        "Scope.A")).total_score ≤
    (scoreServicePrincipal defaultConfig []
      (addAppRoleAssignment
        { object_id := "w7", app_id := "w7a", display_name := "W7" }
        "Scope.A")).total_score :=
  c7_amended_application_at_least_delegated defaultConfig []
    { object_id := "w7", app_id := "w7a", display_name := "W7" }
    "Scope.A" rfl (by decide) (by decide) (by decide) (by decide)
    (by decide)

end OAuthKitchen
